import Mathlib

/-!
Verification development for the LLMOPS plant-detector repository.

The Python sources under `src/plant_detector` are shallowly embedded below:
pure string-processing functions become Lean functions on `String` (with the
underlying `List Char` used for the primitive operations), dictionaries
returned by the services become association lists over a small JSON value
type, and every external call (LLM completion, geocoding, weather/soil/product
HTTP requests) is passed in as an explicit oracle argument whose failure is an
`Except.error` — mirroring a raised exception at that call site.
-/

/- ===================================================================
   Python string primitives, modeled on the character list of a string.
   `String.toLower` from core does not reduce well in the kernel, so the
   embeddings below use their own character-level definitions throughout.
   =================================================================== -/

/-- Models Python `str.startswith`: `startsWithChars p l` is true when the
pattern `p` is an initial segment of `l`. -/
def startsWithChars : List Char → List Char → Bool
  | [], _ => true
  | _ :: _, [] => false
  | p :: ps, c :: cs => p == c && startsWithChars ps cs

/-- Models Python `needle in hay` on strings: some position of `l` starts
with the pattern `p`. -/
def containsSubChars (p : List Char) : List Char → Bool
  | [] => startsWithChars p []
  | c :: cs => startsWithChars p (c :: cs) || containsSubChars p cs

/-- Models Python `str.startswith` at the `String` level. -/
def pyStartsWith (s pat : String) : Bool := startsWithChars pat.data s.data

/-- Models Python `needle in hay` at the `String` level. -/
def strIn (needle hay : String) : Bool := containsSubChars needle.data hay.data

/-- Models Python `str.lower` (ASCII letters; the detector markers and
placeholders are all ASCII). -/
def pyLower (s : String) : String := ⟨s.data.map Char.toLower⟩

/-- Models Python `str.upper` (ASCII letters). -/
def pyUpper (s : String) : String := ⟨s.data.map Char.toUpper⟩

/-- Models Python `str.strip` on a character list. -/
def pyStripChars (cs : List Char) : List Char :=
  ((cs.dropWhile Char.isWhitespace).reverse.dropWhile Char.isWhitespace).reverse

/-- Models Python `str.strip` with no arguments. -/
def pyStrip (s : String) : String := ⟨pyStripChars s.data⟩

/-- Everything after the first `:` of the list, or `[]` when there is no
colon.  Models `line.split(":", 1)[1]`; the sources only evaluate it on
lines already known to contain a colon. -/
def afterFirstColonChars (cs : List Char) : List Char :=
  (cs.dropWhile (fun c => !(c == ':'))).drop 1

/-- Models `line.split(":", 1)[1]` at the `String` level. -/
def pyAfterFirstColon (s : String) : String := ⟨afterFirstColonChars s.data⟩

/-- Models Python `str.replace("*", "")`: drops every asterisk. -/
def removeStars (s : String) : String := ⟨s.data.filter (fun c => !(c == '*'))⟩

/-- Splits a character list at every occurrence of `sep`; always returns at
least one (possibly empty) piece. -/
def splitOnChar (sep : Char) : List Char → List (List Char)
  | [] => [[]]
  | c :: cs =>
    match splitOnChar sep cs with
    | [] => [[]]
    | r :: rs => if c == sep then [] :: r :: rs else (c :: r) :: rs

/-- Models Python `str.splitlines` for `\n`-separated text: splits at every
newline and drops the final empty piece produced by a trailing newline
(`"".splitlines() = []`, `"a\n".splitlines() = ["a"]`).  The rarer `\r`
line boundaries are not used by the detector texts and are not modeled. -/
def pySplitlines (s : String) : List String :=
  let parts := splitOnChar '\n' s.data
  let parts := if parts.getLast? = some [] then parts.dropLast else parts
  parts.map String.mk

/- ===================================================================
   src/plant_pest_detector.py  (Groq-backed variant)
   =================================================================== -/

namespace PlantPestDetector

/-- The guard shared by both extractors of `plant_pest_detector.py`:
`not content or content.startswith("Error") or content.startswith("API")`. -/
def errorGuard (content : String) : Bool :=
  content == "" || pyStartsWith content "Error" || pyStartsWith content "API"

/-- Embeds `PlantPestDetector.extract_subject_type` from
`src/plant_pest_detector.py` (lines 98-112). -/
def extract_subject_type (content : String) : String :=
  if errorGuard content then "error"
  else
    let content_lower := pyLower content
    if strIn "plant species:" content_lower || strIn "health status:" content_lower then
      "plant"
    else if strIn "insect species:" content_lower || strIn "classification:" content_lower then
      "pest"
    else "unknown"

/-- One iteration of the line loop of `extract_primary_id`
(`src/plant_pest_detector.py` lines 121-140): the three `if` blocks of the
Python body each return when their bullet prefix matches the lowercased line
and the value after the first colon, stripped, is non-empty and not a
placeholder; otherwise the loop moves to the next line (`none`). -/
def lineValue (line : String) : Option String :=
  let line_lower := pyLower line
  if pyStartsWith line_lower "- **plant species**:" &&
      (let species := pyStrip (pyAfterFirstColon line)
       !(species == "") && !(pyLower species == "unknown")) then
    some (pyStrip (pyAfterFirstColon line))
  else if pyStartsWith line_lower "- **disease name**:" &&
      (let disease := pyStrip (pyAfterFirstColon line)
       !(disease == "") && !(["n/a", "none", "unknown", ""].contains (pyLower disease))) then
    some (pyStrip (pyAfterFirstColon line))
  else if pyStartsWith line_lower "- **insect species**:" &&
      (let insect := pyStrip (pyAfterFirstColon line)
       !(insect == "") && !(pyLower insect == "unknown")) then
    some (pyStrip (pyAfterFirstColon line))
  else none

/-- The `for line in content.splitlines()` loop of `extract_primary_id`:
first line whose `lineValue` is set wins; exhausting the lines yields the
sentinel. -/
def scanLines : List String → String
  | [] => "Unidentified"
  | line :: rest =>
    match lineValue line with
    | some v => v
    | none => scanLines rest

/-- Embeds `PlantPestDetector.extract_primary_id` from
`src/plant_pest_detector.py` (lines 114-142). -/
def extract_primary_id (content : String) : String :=
  if errorGuard content then "Error"
  else scanLines (pySplitlines content)

end PlantPestDetector

/- ===================================================================
   src/plant_pest_detector2.py  (Gemini-backed variant)
   =================================================================== -/

namespace PlantPestDetector2

/-- The same error guard, from `src/plant_pest_detector2.py`. -/
def errorGuard (content : String) : Bool :=
  content == "" || pyStartsWith content "Error" || pyStartsWith content "API"

/-- Embeds `PlantPestDetector.extract_subject_type` from
`src/plant_pest_detector2.py` (lines 85-102).  Note the insect check runs
before the plant check, the reverse of the Groq variant. -/
def extract_subject_type (content : String) : String :=
  if errorGuard content then "error"
  else
    let content_lower := pyLower content
    if strIn "insect species:" content_lower || strIn "**insect species**" content_lower then
      "pest"
    else if strIn "plant species:" content_lower || strIn "**plant species**" content_lower then
      "plant"
    else if strIn "classification:" content_lower &&
        (strIn "pest" content_lower || strIn "beneficial" content_lower) then
      "pest"
    else "unknown"

/-- One iteration of the line loop of `extract_primary_id`
(`src/plant_pest_detector2.py` lines 113-136).  This variant matches the
markers as substrings of the lowercased stripped line (not as prefixes),
requires a colon in the original line, and cleans the value with
`.strip().replace("*", "").strip()`; within one line the insect marker is
tried first, then disease, then plant. -/
def lineValue (line : String) : Option String :=
  let line_lower := pyStrip (pyLower line)
  if strIn "insect species" line_lower && strIn ":" line &&
      (let insect := pyStrip (removeStars (pyStrip (pyAfterFirstColon line)))
       !(insect == "") && !(["unknown", "n/a", ""].contains (pyLower insect))) then
    some (pyStrip (removeStars (pyStrip (pyAfterFirstColon line))))
  else if strIn "disease name" line_lower && strIn ":" line &&
      (let disease := pyStrip (removeStars (pyStrip (pyAfterFirstColon line)))
       !(disease == "") && !(["n/a", "none", "unknown", ""].contains (pyLower disease))) then
    some (pyStrip (removeStars (pyStrip (pyAfterFirstColon line))))
  else if strIn "plant species" line_lower && strIn ":" line &&
      (let species := pyStrip (removeStars (pyStrip (pyAfterFirstColon line)))
       !(species == "") && !(["unknown", "n/a", ""].contains (pyLower species))) then
    some (pyStrip (removeStars (pyStrip (pyAfterFirstColon line))))
  else none

/-- The line loop of this variant. -/
def scanLines : List String → String
  | [] => "Unidentified"
  | line :: rest =>
    match lineValue line with
    | some v => v
    | none => scanLines rest

/-- Embeds `PlantPestDetector.extract_primary_id` from
`src/plant_pest_detector2.py` (lines 104-138). -/
def extract_primary_id (content : String) : String :=
  if errorGuard content then "Error"
  else scanLines (pySplitlines content)

end PlantPestDetector2

/- ===================================================================
   src/location_service.py — texture classification
   =================================================================== -/

/-- A Python value as it can reach `_determine_texture`: `None`, a number
(ints and floats are idealized as rationals), or a string. -/
inductive PyVal where
  | pnone
  | pnum (x : ℚ)
  | pstr (s : String)
deriving DecidableEq

/-- Python truthiness for the values above: `None`, `0` and `""` are falsy. -/
def pyTruthy : PyVal → Bool
  | .pnone => false
  | .pnum x => !(x == 0)
  | .pstr s => !(s == "")

/-- Accumulates a digit run as a natural number. -/
def digitsToNat (cs : List Char) : ℕ :=
  cs.foldl (fun n c => n * 10 + (c.toNat - '0'.toNat)) 0

/-- Models the decimal core of Python `float(str)`: optional surrounding
whitespace, an optional sign, then digits with at most one decimal point and
at least one digit.  Exponents, `inf`/`nan` and underscores are not used by
anything in the repository and are not modeled. -/
def parseFloatChars (cs : List Char) : Option ℚ :=
  let cs := pyStripChars cs
  let signAndRest : ℚ × List Char :=
    match cs with
    | '+' :: t => (1, t)
    | '-' :: t => (-1, t)
    | t => (1, t)
  let sign := signAndRest.1
  let body := signAndRest.2
  let intPart := body.takeWhile Char.isDigit
  let rest := body.dropWhile Char.isDigit
  match rest with
  | [] => if intPart.isEmpty then none else some (sign * digitsToNat intPart)
  | '.' :: frac =>
    if frac.all Char.isDigit && !(intPart.isEmpty && frac.isEmpty) then
      some (sign * ((digitsToNat intPart : ℚ) + (digitsToNat frac : ℚ) / 10 ^ frac.length))
    else none
  | _ => none

namespace LocationService

/-- One conversion statement of `_determine_texture`
(`src/location_service.py` lines 251-253):
`clay = float(clay) if clay and clay != "None" else None` — a raised
`ValueError`/`TypeError` (non-numeric string, `float(None)`) is `.error ()`,
caught by the surrounding `except` which returns "Unknown". -/
def convertComponent (v : PyVal) : Except Unit (Option ℚ) :=
  if pyTruthy v && !(v == PyVal.pstr "None") then
    match v with
    | .pnone => .error ()
    | .pnum x => .ok (some x)
    | .pstr s =>
      match parseFloatChars s.data with
      | some x => .ok (some x)
      | none => .error ()
  else .ok none

/-- The simplified USDA classification ladder of `_determine_texture`
(`src/location_service.py` lines 260-284), reached only when all three
converted components are truthy. -/
def textureFromPercents (clay sand silt : ℚ) : String :=
  if clay ≥ 40 then "Clay"
  else if clay ≥ 27 then
    if sand > 45 then "Sandy Clay" else "Clay Loam"
  else if clay ≥ 20 then
    if sand > 45 then "Sandy Clay Loam" else "Loam"
  else if sand ≥ 70 then
    if clay ≥ 15 then "Sandy Clay Loam" else "Sandy Loam"
  else if silt ≥ 50 then
    if clay < 12 then "Silt Loam" else "Silty Clay Loam"
  else "Loam"

/-- Glue over the three converted components: a conversion error or the
`if not all([clay, sand, silt]): return "Unknown"` check (a `None` or `0.0`
component is falsy) short-circuits to "Unknown". -/
def textureOfConverted : Except Unit (Option ℚ) → Except Unit (Option ℚ) →
    Except Unit (Option ℚ) → String
  | .ok (some c), .ok (some s), .ok (some t) =>
    if c = 0 ∨ s = 0 ∨ t = 0 then "Unknown" else textureFromPercents c s t
  | _, _, _ => "Unknown"

/-- Embeds `LocationService._determine_texture` from
`src/location_service.py` (lines 244-284). -/
def _determine_texture (clay sand silt : PyVal) : String :=
  textureOfConverted (convertComponent clay) (convertComponent sand) (convertComponent silt)

/-- The nine strings `_determine_texture` can produce. -/
def textureCodomain : List String :=
  ["Unknown", "Clay", "Sandy Clay", "Clay Loam", "Sandy Clay Loam",
   "Loam", "Sandy Loam", "Silt Loam", "Silty Clay Loam"]

/-- A component that is absent, non-numeric, or equal to zero. -/
def badComponent : PyVal → Prop
  | .pnone => True
  | .pnum x => x = 0
  | .pstr s => parseFloatChars s.data = none ∨ parseFloatChars s.data = some 0

instance : DecidablePred badComponent := by
  intro v
  cases v <;> simp [badComponent] <;> infer_instance

end LocationService

/- ===================================================================
   src/location_service.py — weather and soil fetch
   =================================================================== -/

/-- A JSON-ish Python value as stored in the dictionaries the services
return; `jnull` doubles as Python `None`. -/
inductive JVal where
  | jnull
  | jstr (s : String)
  | jnum (x : ℚ)
  | jobj (fields : List (String × JVal))
  | jarr (elems : List JVal)

/-- A Python dict with string keys. -/
abbrev Dict := List (String × JVal)

/-- First binding of a key, if any. -/
def dictLookup (d : Dict) (k : String) : Option JVal :=
  (d.find? (fun p => p.1 == k)).map (fun p => p.2)

/-- Models Python `d.get(k)`: `None` when the key is absent. -/
def dGet (d : Dict) (k : String) : JVal := (dictLookup d k).getD .jnull

/-- Models Python `d.get(k, default)`. -/
def dGetD (d : Dict) (k : String) (dflt : JVal) : JVal := (dictLookup d k).getD dflt

/-- Models Python `k in d`. -/
def hasKey (d : Dict) (k : String) : Bool := (dictLookup d k).isSome

/-- Models `d.get(k, {})` followed by dict use.  The contexts built by
`LocationService` always store a dict under these keys; a non-dict value
(on which Python would raise) is modeled as the empty dict. -/
def dGetDict (d : Dict) (k : String) : Dict :=
  match dictLookup d k with
  | some (.jobj fields) => fields
  | _ => []

/-- Models `d.get(k, [])` for list-valued keys, with the same convention. -/
def dGetList (d : Dict) (k : String) : List JVal :=
  match dictLookup d k with
  | some (.jarr elems) => elems
  | _ => []

/-- Models `period.get(k)` where the list element is expected to be a
dict. -/
def jGet (v : JVal) (k : String) : JVal :=
  match v with
  | .jobj fields => dGet fields k
  | _ => .jnull

/-- Python truthiness of a stored value (`bool(x)`). -/
def jTruthy : JVal → Bool
  | .jnull => false
  | .jstr s => !(s == "")
  | .jnum x => !(x == 0)
  | .jobj fields => !fields.isEmpty
  | .jarr elems => !elems.isEmpty

namespace LocationService

/-- Successful outcome of the two weather-service round-trips inside
`get_weather_data`: the city/state fields read from
`points_data["properties"]["relativeLocation"]["properties"]` and the
forecast `periods` list (each period a raw dict).  A network failure,
non-2xx status, or missing key anywhere in the `try` block is an
`Except.error` carrying the exception text. -/
structure ForecastFetch where
  city : JVal
  state : JVal
  periods : List Dict

/-- Embeds `LocationService.get_weather_data` from
`src/location_service.py` (lines 45-107).  `geocode` stands for
`zip_to_coordinates` (which returns `None` on any failure) and `fetch` for
the points+forecast HTTP requests. -/
def get_weather_data (geocode : String → Option (ℚ × ℚ))
    (fetch : ℚ → ℚ → Except String ForecastFetch) (zipcode : String) : Dict :=
  match geocode zipcode with
  | none =>
    [("error", .jstr ("Could not find location for zip code " ++ zipcode)),
     ("zipcode", .jstr zipcode)]
  | some (lat, lon) =>
    match fetch lat lon with
    | .error e =>
      [("error", .jstr ("Failed to fetch weather data: " ++ e)),
       ("zipcode", .jstr zipcode)]
    | .ok fd =>
      let current : Dict := fd.periods.headD []
      [("zipcode", .jstr zipcode),
       ("location", .jobj
         [("latitude", .jnum lat), ("longitude", .jnum lon),
          ("city", fd.city), ("state", fd.state)]),
       ("current", .jobj
         [("temperature", dGet current "temperature"),
          ("temperature_unit", dGet current "temperatureUnit"),
          ("wind_speed", dGet current "windSpeed"),
          ("wind_direction", dGet current "windDirection"),
          ("short_forecast", dGet current "shortForecast"),
          ("detailed_forecast", dGet current "detailedForecast")]),
       ("forecast_3day", .jarr ((fd.periods.take 6).map (fun p => .jobj
         [("name", dGet p "name"),
          ("temperature", dGet p "temperature"),
          ("short_forecast", dGet p "shortForecast")])))]

/-- Models the `safe_float` helper nested in `get_soil_data`
(`src/location_service.py` lines 178-185). -/
def safe_float (value : JVal) : Option ℚ :=
  match value with
  | .jnull => none
  | .jstr s => if s = "None" ∨ s = "" then none else parseFloatChars s.data
  | .jnum x => some x
  | .jobj _ => none
  | .jarr _ => none

/-- Models `row[i] if len(row) > i and row[i] else "Unknown"` for the six
string columns of the SDA row. -/
def rowStr (row : List JVal) (i : ℕ) : JVal :=
  if i < row.length && jTruthy (row.getD i .jnull) then row.getD i .jnull
  else .jstr "Unknown"

/-- Models `safe_float(row[i]) if len(row) > i else None` for the numeric
columns. -/
def rowFloat (row : List JVal) (i : ℕ) : Option ℚ :=
  if i < row.length then safe_float (row.getD i .jnull) else none

/-- Models Python `round(x, 1)` on the decimal idealization of a float:
round half to even at one decimal place. -/
def pyRound1 (x : ℚ) : ℚ :=
  let y := x * 10
  let fl : ℤ := ⌊y⌋
  let r : ℤ :=
    if y - fl < 1 / 2 then fl
    else if y - fl > 1 / 2 then fl + 1
    else if fl % 2 = 0 then fl else fl + 1
  (r : ℚ) / 10

/-- `round(v, 1)` when present, else the string "Not available". -/
def roundOrNA (v : Option ℚ) : JVal :=
  match v with
  | some x => .jnum (pyRound1 x)
  | none => .jstr "Not available"

/-- Bridges a converted column back into the argument type of
`_determine_texture` (Python passes the float-or-`None` values directly). -/
def optToPyVal : Option ℚ → PyVal
  | none => .pnone
  | some x => .pnum x

/-- Embeds `LocationService.get_soil_data` from `src/location_service.py`
(lines 109-241).  `sda` stands for the Soil Data Access POST: its `.ok`
value is the list of rows of `data["Table"]` (the empty list covering both
a missing `Table` key and an empty table, which the source treats the same
way), and `.error` is any exception in the `try` block. -/
def get_soil_data (geocode : String → Option (ℚ × ℚ))
    (sda : ℚ → ℚ → Except String (List (List JVal))) (zipcode : String) : Dict :=
  match geocode zipcode with
  | none =>
    [("error", .jstr ("Could not find location for zip code " ++ zipcode)),
     ("zipcode", .jstr zipcode)]
  | some (lat, lon) =>
    match sda lat lon with
    | .error e =>
      [("error", .jstr ("Failed to fetch soil data: " ++ e)),
       ("zipcode", .jstr zipcode)]
    | .ok [] =>
      [("zipcode", .jstr zipcode),
       ("soil_properties", .jobj
         [("soil_name", .jstr "No detailed soil data available for this location")]),
       ("data_source", .jstr "USDA SSURGO via Soil Data Access"),
       ("note", .jstr "This location may not have detailed SSURGO coverage")]
    | .ok (row :: _) =>
      let sand := rowFloat row 6
      let silt := rowFloat row 7
      let clay := rowFloat row 8
      let ph := rowFloat row 9
      let organic_matter := rowFloat row 10
      let texture := _determine_texture (optToPyVal clay) (optToPyVal sand) (optToPyVal silt)
      [("zipcode", .jstr zipcode),
       ("location", .jobj [("latitude", .jnum lat), ("longitude", .jnum lon)]),
       ("soil_properties", .jobj
         [("soil_name", rowStr row 0),
          ("soil_symbol", rowStr row 1),
          ("component_name", rowStr row 2),
          ("soil_order", rowStr row 3),
          ("soil_subgroup", rowStr row 4),
          ("drainage_class", rowStr row 5),
          ("sand_percent", roundOrNA sand),
          ("silt_percent", roundOrNA silt),
          ("clay_percent", roundOrNA clay),
          ("soil_texture", .jstr texture),
          ("ph", roundOrNA ph),
          ("organic_matter_percent", roundOrNA organic_matter)]),
       ("data_source", .jstr "USDA SSURGO via Soil Data Access")]

end LocationService

/- ===================================================================
   mcp_server/agri_tools.py — SerperProductSearch
   =================================================================== -/

namespace SerperProductSearch

/-- One entry of the Serper `organic` results list, keeping the two keys
the parser reads; an absent key models `item.get(..., default)` taking the
default. -/
structure OrganicItem where
  title : Option String
  link : Option String

/-- The parsed Serper response body: `data.get("organic", [])` (a missing
`organic` key is the empty list). -/
structure SerperData where
  organic : List OrganicItem

/-- A parsed product entry `{"name": ..., "url": ...}`. -/
structure SProduct where
  name : String
  url : String
deriving DecidableEq

/-- Is `c` one of the `[A-Z0-9]` ASCII characters of the ASIN pattern? -/
def isAsinChar (c : Char) : Bool := ('A' ≤ c && c ≤ 'Z') || ('0' ≤ c && c ≤ '9')

/-- Does `l` start with the pattern `pat` followed by at least ten
`[A-Z0-9]` characters? -/
def matchAsinAt (pat l : List Char) : Bool :=
  startsWithChars pat l &&
    (let rest := l.drop pat.length
     decide (rest.length ≥ 10) && (rest.take 10).all isAsinChar)

/-- Models `re.search(pat + r'([A-Z0-9]{10})', url)`: some position of the
text matches. -/
def searchAsin (pat : List Char) : List Char → Bool
  | [] => matchAsinAt pat []
  | c :: cs => matchAsinAt pat (c :: cs) || searchAsin pat cs

/-- Embeds `SerperProductSearch._validate_amazon_url` from
`mcp_server/agri_tools.py` (lines 102-115). -/
def _validate_amazon_url (url : String) : Bool :=
  if url == "" || url == "#" then false
  else if strIn "/dp/" url then searchAsin "/dp/".data url.data
  else if strIn "/gp/product/" url then searchAsin "/gp/product/".data url.data
  else if strIn "/s?" url && strIn "k=" url then true
  else false

/-- Models `query.replace(' ', '+')`. -/
def plusify (q : String) : String := ⟨q.data.map (fun c => if c == ' ' then '+' else c)⟩

/-- The product-collection loop of `_parse_response`: breaks once
`max_results` entries are collected, skips entries whose link fails
validation, and defaults missing titles/links. -/
def collectProducts (max_results : ℕ) : List OrganicItem → List SProduct → List SProduct
  | [], acc => acc
  | item :: rest, acc =>
    if acc.length ≥ max_results then acc
    else
      let title := item.title.getD "Unknown Product"
      let link := item.link.getD "#"
      if _validate_amazon_url link then
        collectProducts max_results rest (acc ++ [⟨title, link⟩])
      else collectProducts max_results rest acc

/-- Embeds `SerperProductSearch._parse_response` from
`mcp_server/agri_tools.py` (lines 117-151): an empty `organic` list returns
`[]` immediately (skipping the fallback), and an empty collection result
falls back to a single view-search entry. -/
def _parse_response (data : SerperData) (original_query : String)
    (max_results : ℕ) : List SProduct :=
  let organic_results := data.organic
  if organic_results.isEmpty then []
  else
    let products := collectProducts max_results organic_results []
    if products.isEmpty then
      [⟨"View search results for: " ++ original_query,
        "https://www.amazon.com/s?k=" ++ plusify original_query⟩]
    else products

/-- Embeds `SerperProductSearch.search_products` from
`mcp_server/agri_tools.py` (lines 72-100).  The Serper POST is the oracle
`resp`; any exception inside the `try` (network, non-2xx, JSON decode)
degrades to the single fallback search-link entry. -/
def search_products (resp : Except String SerperData) (query : String)
    (max_results : ℕ) : List SProduct :=
  match resp with
  | .error _ =>
    [⟨"Search results for: " ++ query, "https://www.amazon.com/s?k=" ++ plusify query⟩]
  | .ok data => _parse_response data query max_results

end SerperProductSearch

/- ===================================================================
   src/qa_engine.py — AgriQAEngine
   =================================================================== -/

/-- One record of `self.conversation_history`, mirroring the three dict
shapes appended by the engine. -/
inductive Entry where
  | menu_selection (option : ℕ) (answer : String)
  | detailed_report (content : String)
  | custom_question (question : String) (answer : String)

/-- One entry of the list returned by `search_amazon_products`
(`mcp_server/amazon_tools.py`): either a full product dict with the four
keys the formatter reads, or an error dict (`"error" in product`).  That
function catches every exception itself, so the call is total. -/
inductive AmazonItem where
  | item (name price url rating : String)
  | error (msg query : String)

/-- The mutable state of an `AgriQAEngine` instance (`__init__`,
`src/qa_engine.py` lines 26-33); the fields start as `None`/`[]` and the
setters fill them. -/
structure Engine where
  pest_or_disease : Option String
  severity : Option String
  subject_type : Option String
  plant_type : Option String
  infestation_level : Option String
  location_context : Option (Dict × Dict)
  conversation_history : List Entry

/-- The engine's external collaborators: `self.model.generate_content`
(returning the reply text, or `.error` for a raised exception) and
`search_amazon_products` (total; see `AmazonItem`). -/
structure Oracle where
  generate : String → Except String String
  amazon : String → ℕ → List AmazonItem

/-- Python `str()` of an optional string field (`str(None) = "None"` as it
appears interpolated into an f-string). -/
def oStr : Option String → String
  | some s => s
  | none => "None"

/-- Python `str()` of a stored value as interpolated into an f-string.
Dict/list reprs are not needed by any claim and are modeled opaquely. -/
def jStr : JVal → String
  | .jnull => "None"
  | .jstr s => s
  | .jnum x => toString x
  | .jobj _ => "<dict>"
  | .jarr _ => "<list>"

/-- The guard of `answer_menu_selection`
(`if not self.pest_or_disease or not self.location_context`): the engine
proceeds only when the issue string is truthy and the location context has
been set (the context dict always carries its two keys, hence is truthy
whenever present). -/
def Engine.hasContext (st : Engine) : Bool :=
  (match st.pest_or_disease with
   | some s => !(s == "")
   | none => false) && st.location_context.isSome

/-- `self.location_context["weather"]` (empty dict before the setter ran). -/
def Engine.weather (st : Engine) : Dict := (st.location_context.getD ([], [])).1

/-- `self.location_context["soil"]`. -/
def Engine.soil (st : Engine) : Dict := (st.location_context.getD ([], [])).2

/-- The compact context block built at the top of `answer_menu_selection`
(`src/qa_engine.py` lines 195-209). -/
def menuContext (st : Engine) : String :=
  "\nISSUE: " ++ oStr st.pest_or_disease ++ " (" ++ oStr st.severity ++ ")" ++
  "\nPLANT: " ++ oStr st.plant_type ++
  "\nINFESTATION LEVEL: " ++ oStr st.infestation_level ++
  "\nTEMP: " ++ jStr (dGet (dGetDict st.weather "current") "temperature") ++ "°F" ++
  "\nSOIL: " ++ jStr (dGet (dGetDict st.soil "soil_properties") "soil_texture") ++ ", " ++
  jStr (dGet (dGetDict st.soil "soil_properties") "drainage_class") ++ "\n"

/-- Option-1 prompt when the infestation level is unknown
(`src/qa_engine.py` lines 213-230). -/
def option1PromptAllLevels (st : Engine) : String :=
  menuContext st ++
  "\n\nProvide brief treatment recommendations for ALL THREE infestation levels.\n\nFor each level, recommend 2-3 SPECIFIC product types (e.g., \"Bt insecticide\", \"Spinosad spray\", \"Neem oil concentrate\").\n\nFormat:\n**Low Infestation:**\n- Manual removal (if applicable)\n- Product types: [specific product type 1], [specific product type 2]\n\n**Medium Infestation:**\n- Product types: [specific product type 1], [specific product type 2]\n\n**High Infestation:**\n- Product types: [specific product type 1], [specific product type 2]\n\nCRITICAL: Mention specific PRODUCT TYPES (not brand names) that we can search on Amazon."

/-- Option-1 prompt for a known infestation level (`src/qa_engine.py`
lines 232-240).  Interpolating a `None` level would raise in Python; the
engine only reaches this with the level set. -/
def option1PromptForLevel (st : Engine) : String :=
  menuContext st ++
  "\n\nProvide treatment recommendations for " ++ pyUpper (oStr st.infestation_level) ++
  " infestation.\n\nRecommend 2-3 SPECIFIC product types suitable for " ++ oStr st.plant_type ++
  " (e.g., \"organic Bt spray for caterpillars\", \"spinosad concentrate\", \"neem oil spray\").\n\n" ++
  (if st.infestation_level == some "low" then
    "Include manual removal as first option since infestation is low." else "") ++
  "\n\nFormat in 2 short paragraphs. List specific PRODUCT TYPES (not brand names) that we can search on Amazon."

/-- The prompt sent by the option-1 branch. -/
def option1Prompt (st : Engine) : String :=
  if st.infestation_level == some "Unknown" then option1PromptAllLevels st
  else option1PromptForLevel st

/-- The fixed keyword list scanned over the treatment text
(`src/qa_engine.py` lines 249-253). -/
def keywords_to_search : List String :=
  ["Bt", "spinosad", "neem oil", "pyrethrin", "insecticidal soap",
   "copper fungicide", "sulfur spray", "diatomaceous earth",
   "horticultural oil", "bacillus thuringiensis"]

/-- The enumerated product-link block (`src/qa_engine.py` lines 275-279):
`enumerate(..., 1)` numbers every item, error entries are skipped but still
consume their index. -/
def enumLinks : List AmazonItem → ℕ → String
  | [], _ => ""
  | .error _ _ :: rest, i => enumLinks rest (i + 1)
  | .item nm pr url rt :: rest, i =>
    toString i ++ ". **" ++ nm ++ "**\n   💰 " ++ pr ++ " | ⭐ " ++ rt ++
    "\n   🔗 [View on Amazon](" ++ url ++ ")\n\n" ++ enumLinks rest (i + 1)

/-- The body under the product-links header (`src/qa_engine.py` lines
272-281): the loop over the first four items runs only when the list is
non-empty and its FIRST entry is not an error dict. -/
def productLinksBody (items : List AmazonItem) : String :=
  match items with
  | [] => "*(Product links temporarily unavailable)*\n"
  | .error _ _ :: _ => "*(Product links temporarily unavailable)*\n"
  | .item _ _ _ _ :: _ => enumLinks (items.take 4) 1

/-- What the option-1 branch does after a successful generation
(`src/qa_engine.py` lines 244-284): keyword scan, up to two Amazon
searches of two results each, link formatting, and concatenation. -/
def option1Answer (o : Oracle) (st : Engine) (treatment_text : String) : String :=
  let treatment_lower := pyLower treatment_text
  let product_keywords := keywords_to_search.filter (fun k => strIn (pyLower k) treatment_lower)
  let product_keywords :=
    if product_keywords.isEmpty then
      [oStr st.pest_or_disease ++ " treatment " ++ oStr st.plant_type]
    else product_keywords
  let amazon_products := (product_keywords.take 2).foldl
    (fun acc k => acc ++ o.amazon (k ++ " organic pesticide") 2) []
  let product_links := "\n\n---\n\n**🛒 Recommended Products on Amazon:**\n\n" ++
    productLinksBody amazon_products
  treatment_text ++ product_links

/-- The soil display block of option 2 (`src/qa_engine.py` lines 301-310). -/
def soilInfoDisplay (soil_props : Dict) : String :=
  "**Your Soil Type:**\n🪨 Name: " ++ jStr (dGet soil_props "soil_name") ++
  "\n📊 Texture: " ++ jStr (dGet soil_props "soil_texture") ++
  "\n💧 Drainage: " ++ jStr (dGet soil_props "drainage_class") ++
  "\n🏖️ Sand: " ++ jStr (dGet soil_props "sand_percent") ++ "%" ++
  "\n🧱 Clay: " ++ jStr (dGet soil_props "clay_percent") ++ "%" ++
  "\n🌾 Silt: " ++ jStr (dGet soil_props "silt_percent") ++ "%" ++
  "\n🧪 pH: " ++ jStr (dGet soil_props "ph") ++
  "\n🌿 Organic Matter: " ++ jStr (dGet soil_props "organic_matter_percent") ++ "%\n"

/-- The option-2 prompt (`src/qa_engine.py` lines 312-325). -/
def option2Prompt (st : Engine) : String :=
  let soil_props := dGetDict st.soil "soil_properties"
  "First, the user sees their soil information (already displayed above).\n\nNow provide analysis in 3 SHORT paragraphs:\n\nParagraph 1: Explain what this soil type means for " ++
  oStr st.plant_type ++ " cultivation (1 brief paragraph)\n\nParagraphs 2-3: How this soil affects treatment for " ++
  oStr st.pest_or_disease ++ ":\n- Application adjustments needed for " ++
  jStr (dGet soil_props "soil_texture") ++ " with " ++
  jStr (dGet soil_props "drainage_class") ++
  " drainage\n- pH impact on treatment effectiveness\n\nContext:\n" ++
  menuContext st ++ "\n\nKeep it concise - 3 short paragraphs total."

/-- The weather display block of option 3 (`src/qa_engine.py` lines
342-354): current conditions plus the first six forecast periods. -/
def weatherDisplay (st : Engine) : String :=
  let current := dGetDict st.weather "current"
  let forecast := dGetList st.weather "forecast_3day"
  "**Current Weather:**\n🌡️ Temperature: " ++ jStr (dGet current "temperature") ++ "°" ++
  jStr (dGet current "temperature_unit") ++
  "\n☁️ Conditions: " ++ jStr (dGet current "short_forecast") ++
  "\n💨 Wind: " ++ jStr (dGet current "wind_speed") ++ " " ++
  jStr (dGet current "wind_direction") ++ "\n\n**3-Day Forecast:**\n" ++
  String.join ((forecast.take 6).map (fun p =>
    "• " ++ jStr (jGet p "name") ++ ": " ++ jStr (jGet p "temperature") ++ "° - " ++
    jStr (jGet p "short_forecast") ++ "\n"))

/-- The option-3 prompt (`src/qa_engine.py` lines 356-365). -/
def option3Prompt (st : Engine) : String :=
  "The user sees their weather information (already displayed above).\n\nNow provide timing guidance in EXACTLY 2 short paragraphs:\n- Best application window in next 3 days for treating " ++
  oStr st.pest_or_disease ++
  "\n- Why timing matters (rain, temperature, wind effects)\n\nContext:\n" ++
  menuContext st ++ "\n\nKeep it BRIEF - exactly 2 short paragraphs."

/-- The option-4 prompt (`src/qa_engine.py` lines 382-389). -/
def option4Prompt (st : Engine) : String :=
  menuContext st ++
  "\n\nProvide monitoring and prevention advice (EXACTLY 2 short paragraphs):\n- How often to check " ++
  oStr st.plant_type ++
  "\n- What signs indicate treatment success/failure\n- Prevention tips\n\nKeep it BRIEF - exactly 2 short paragraphs."

/-- The fixed report template of option 5 (`src/qa_engine.py` lines
400-424); the four numbered section headers are kept as separate factors of
the concatenation. -/
def mkDetailedReport (treatment soil_impact weather_timing monitoring : String) : String :=
  let eq70 := String.mk (List.replicate 70 '=')
  let dash70 := String.mk (List.replicate 70 '─')
  "\n" ++ eq70 ++ "\nCOMPREHENSIVE TREATMENT REPORT\n" ++ eq70 ++ "\n\n" ++
  "## 1. TREATMENT RECOMMENDATIONS" ++ ("\n" ++ treatment ++ "\n\n" ++ dash70 ++ "\n\n") ++
  "## 2. SOIL IMPACT ANALYSIS" ++ ("\n" ++ soil_impact ++ "\n\n" ++ dash70 ++ "\n\n") ++
  "## 3. WEATHER-BASED TIMING" ++ ("\n" ++ weather_timing ++ "\n\n" ++ dash70 ++ "\n\n") ++
  "## 4. MONITORING & PREVENTION" ++ ("\n" ++ monitoring ++ "\n\n" ++ eq70 ++ "\n")

/-- The option-1 branch of `answer_menu_selection` (`src/qa_engine.py`
lines 211-295), guard included.  A raised model exception is caught by the
branch's `except` and becomes the inline error string, returned before the
`append`. -/
def answerOption1 (o : Oracle) (st : Engine) : String × Engine :=
  if !st.hasContext then ("Missing context. Please start over.", st)
  else
    match o.generate (option1Prompt st) with
    | .error e => ("Error generating recommendations: " ++ e, st)
    | .ok txt =>
      let answer := option1Answer o st (pyStrip txt)
      (answer, { st with conversation_history :=
        st.conversation_history ++ [.menu_selection 1 answer] })

/-- The option-2 branch (`src/qa_engine.py` lines 297-339): the display
block is always emitted and the entry is appended on both outcomes. -/
def answerOption2 (o : Oracle) (st : Engine) : String × Engine :=
  if !st.hasContext then ("Missing context. Please start over.", st)
  else
    let soil_props := dGetDict st.soil "soil_properties"
    let soil_info_display := soilInfoDisplay soil_props
    let answer :=
      match o.generate (option2Prompt st) with
      | .ok txt => soil_info_display ++ "\n\n" ++ pyStrip txt
      | .error e => soil_info_display ++ "\n\nError generating analysis: " ++ e
    (answer, { st with conversation_history :=
      st.conversation_history ++ [.menu_selection 2 answer] })

/-- The option-3 branch (`src/qa_engine.py` lines 341-379). -/
def answerOption3 (o : Oracle) (st : Engine) : String × Engine :=
  if !st.hasContext then ("Missing context. Please start over.", st)
  else
    let weather_display := weatherDisplay st
    let answer :=
      match o.generate (option3Prompt st) with
      | .ok txt => weather_display ++ "\n\n" ++ pyStrip txt
      | .error e => weather_display ++ "\n\nError: " ++ e
    (answer, { st with conversation_history :=
      st.conversation_history ++ [.menu_selection 3 answer] })

/-- The option-4 branch (`src/qa_engine.py` lines 381-389 and the shared
trailer at lines 437-449): the error string is returned before the
`append`. -/
def answerOption4 (o : Oracle) (st : Engine) : String × Engine :=
  if !st.hasContext then ("Missing context. Please start over.", st)
  else
    match o.generate (option4Prompt st) with
    | .error e => ("Error: " ++ e, st)
    | .ok txt =>
      let answer := pyStrip txt
      (answer, { st with conversation_history :=
        st.conversation_history ++ [.menu_selection 4 answer] })

/-- Embeds `AgriQAEngine.answer_menu_selection` from `src/qa_engine.py`
(lines 187-449) as a state transformer.  Option 5 recursively invokes
`answer_menu_selection` with options 1-4 in order; since those arguments
are literals, the recursive calls are written as the per-option branch
functions they dispatch to (each re-checking the guard exactly as the
recursive call would), and then the single `detailed_report` entry is
appended. -/
def answer_menu_selection (o : Oracle) (st : Engine) (option : ℕ) : String × Engine :=
  match option with
  | 1 => answerOption1 o st
  | 2 => answerOption2 o st
  | 3 => answerOption3 o st
  | 4 => answerOption4 o st
  | 5 =>
    if !st.hasContext then ("Missing context. Please start over.", st)
    else
      let r1 := answerOption1 o st
      let r2 := answerOption2 o r1.2
      let r3 := answerOption3 o r2.2
      let r4 := answerOption4 o r3.2
      let report := mkDetailedReport r1.1 r2.1 r3.1 r4.1
      (report, { r4.2 with conversation_history :=
        r4.2.conversation_history ++ [.detailed_report report] })
  | _ =>
    if !st.hasContext then ("Missing context. Please start over.", st)
    else ("Invalid option. Please select 1-6.", st)

/-- The context block of `ask_custom_question` (`src/qa_engine.py` lines
459-470); the weather/soil conditionals test dict truthiness. -/
def customContext (st : Engine) : String :=
  let weather := match st.location_context with
    | some lc => lc.1
    | none => []
  let soil := match st.location_context with
    | some lc => lc.2
    | none => []
  "\nDETECTED ISSUE: " ++ oStr st.pest_or_disease ++ " (" ++ oStr st.severity ++ ")" ++
  "\nPLANT: " ++ oStr st.plant_type ++
  "\nINFESTATION LEVEL: " ++ oStr st.infestation_level ++
  "\nLOCATION: " ++
  (if weather.isEmpty then "Unknown" else jStr (dGet (dGetDict weather "location") "city")) ++
  "\nTEMPERATURE: " ++
  (if weather.isEmpty then "Unknown" else jStr (dGet (dGetDict weather "current") "temperature")) ++
  "°F\nSOIL TEXTURE: " ++
  (if soil.isEmpty then "Unknown"
   else jStr (dGet (dGetDict soil "soil_properties") "soil_texture")) ++
  "\nSOIL DRAINAGE: " ++
  (if soil.isEmpty then "Unknown"
   else jStr (dGet (dGetDict soil "soil_properties") "drainage_class")) ++ "\n"

/-- The prompt of `ask_custom_question` (`src/qa_engine.py` lines 472-476). -/
def customPrompt (st : Engine) (question : String) : String :=
  customContext st ++ "\n\nUSER QUESTION: " ++ question ++
  "\n\nProvide a helpful answer using the context above. Keep it concise - EXACTLY 2 short paragraphs:"

/-- Embeds `AgriQAEngine.ask_custom_question` from `src/qa_engine.py`
(lines 451-490). -/
def ask_custom_question (o : Oracle) (st : Engine) (question : String) : String × Engine :=
  if !(match st.pest_or_disease with
       | some s => !(s == "")
       | none => false) then
    ("Please start with image detection first.", st)
  else
    match o.generate (customPrompt st question) with
    | .error e => ("Error: " ++ e, st)
    | .ok txt =>
      let answer := pyStrip txt
      (answer, { st with conversation_history :=
        st.conversation_history ++ [.custom_question question answer] })

/-- A concrete location context (weather and soil dicts of the shape
`LocationService` produces) used by the concrete sessions below. -/
def egLocation : Dict × Dict :=
  ([("zipcode", .jstr "92336"),
    ("location", .jobj [("city", .jstr "Fontana"), ("state", .jstr "CA")]),
    ("current", .jobj [("temperature", .jstr "75"),
      ("temperature_unit", .jstr "F"), ("short_forecast", .jstr "Sunny"),
      ("wind_speed", .jstr "5 mph"), ("wind_direction", .jstr "W")]),
    ("forecast_3day", .jarr [])],
   [("zipcode", .jstr "92336"),
    ("soil_properties", .jobj [("soil_name", .jstr "Ramona"),
      ("soil_texture", .jstr "Loam"), ("drainage_class", .jstr "Well drained"),
      ("sand_percent", .jstr "40"), ("clay_percent", .jstr "20"),
      ("silt_percent", .jstr "40"), ("ph", .jstr "6.5"),
      ("organic_matter_percent", .jstr "1.5")])])

/-- A fully initialized concrete session. -/
def egEngine : Engine :=
  { pest_or_disease := some "Aphids"
    severity := some "Moderate"
    subject_type := some "pest"
    plant_type := some "Tomato"
    infestation_level := some "low"
    location_context := some egLocation
    conversation_history := [] }

/-- An oracle on which every model call succeeds and every product search
returns one well-formed item. -/
def okOracle : Oracle :=
  { generate := fun _ => .ok "advice text"
    amazon := fun q _ =>
      [.item ("Product for " ++ q) "$10" "https://www.amazon.com/dp/B000000001" "4.5"] }

/-- An oracle on which every model call raises. -/
def failOracle : Oracle :=
  { generate := fun _ => .error "boom"
    amazon := fun _ _ => [.error "Search failed: boom" "q"] }

/- ===================================================================
   src/qa_engine_agentic.py — mobile agentic engine
   =================================================================== -/

namespace Agentic

/-- The non-handle fields of the agentic session context dict
(`create_agentic_session`, `src/qa_engine_agentic.py` lines 138-156); the
`chat`/`model` handles are represented by the oracle below. -/
structure AgContext where
  pest_or_disease : String
  severity : String
  plant_type : String
  infestation_level : String
  zipcode : String

/-- External collaborators of the agentic engine: the conversational
channel (`chat.send_message(...).text`, modeled as a function of the prompt
with the channel history elided, `.error` for a raised exception) and the
`LocationService` round-trips used by `get_weather_data`/`get_soil_data`. -/
structure AgOracle where
  send : String → Except String String
  geocode : String → Option (ℚ × ℚ)
  wfetch : ℚ → ℚ → Except String LocationService.ForecastFetch
  sfetch : ℚ → ℚ → Except String (List (List JVal))

/-- Models `period.get(k, 'N/A')`-style access on a forecast list element
expected to be a dict. -/
def jGetD (v : JVal) (k : String) (dflt : String) : JVal :=
  match v with
  | .jobj fields => dGetD fields k (.jstr dflt)
  | _ => .jstr dflt

/-- Python `value != "Not available"` on a stored value. -/
def jNeStr (v : JVal) (s : String) : Bool :=
  match v with
  | .jstr t => !(t == s)
  | _ => true

/-- Embeds `format_weather_display` from `src/qa_engine_agentic.py`
(lines 63-84). -/
def format_weather_display (weather_data : Dict) : String :=
  if hasKey weather_data "error" then "⚠️ Weather data unavailable"
  else
    let location := dGetDict weather_data "location"
    let current := dGetDict weather_data "current"
    let forecast := dGetList weather_data "forecast_3day"
    "**Current Weather:**\n- 📍 Location: " ++ jStr (dGetD location "city" (.jstr "Unknown")) ++
    ", " ++ jStr (dGetD location "state" (.jstr "Unknown")) ++
    "\n- 🌡️ Temperature: " ++ jStr (dGetD current "temperature" (.jstr "N/A")) ++ "°" ++
    jStr (dGetD current "temperature_unit" (.jstr "F")) ++
    "\n- ☁️ Conditions: " ++ jStr (dGetD current "short_forecast" (.jstr "N/A")) ++
    "\n- 💨 Wind: " ++ jStr (dGetD current "wind_speed" (.jstr "N/A")) ++ " " ++
    jStr (dGetD current "wind_direction" (.jstr "N/A")) ++ "\n\n**3-Day Forecast:**\n" ++
    String.join ((forecast.take 6).map (fun p =>
      "• " ++ jStr (jGetD p "name" "N/A") ++ ": " ++ jStr (jGetD p "temperature" "N/A") ++
      "° - " ++ jStr (jGetD p "short_forecast" "N/A") ++ "\n"))

/-- Embeds `format_soil_display` from `src/qa_engine_agentic.py`
(lines 87-117): the five numeric lines appear only when the value is not
the "Not available" placeholder. -/
def format_soil_display (soil_data : Dict) : String :=
  if hasKey soil_data "error" then "⚠️ Soil data unavailable"
  else
    let soil_props := dGetDict soil_data "soil_properties"
    let sand := dGetD soil_props "sand_percent" (.jstr "Not available")
    let clay := dGetD soil_props "clay_percent" (.jstr "Not available")
    let silt := dGetD soil_props "silt_percent" (.jstr "Not available")
    let ph := dGetD soil_props "ph" (.jstr "Not available")
    let organic := dGetD soil_props "organic_matter_percent" (.jstr "Not available")
    "**Your Soil Type:**\n- 🪨 Name: " ++ jStr (dGetD soil_props "soil_name" (.jstr "Unknown")) ++
    "\n- 📊 Texture: " ++ jStr (dGetD soil_props "soil_texture" (.jstr "Unknown")) ++
    "\n- 💧 Drainage: " ++ jStr (dGetD soil_props "drainage_class" (.jstr "Unknown")) ++ "\n" ++
    (if jNeStr sand "Not available" then "- 🏖️ Sand: " ++ jStr sand ++ "%\n" else "") ++
    (if jNeStr clay "Not available" then "- 🧱 Clay: " ++ jStr clay ++ "%\n" else "") ++
    (if jNeStr silt "Not available" then "- 🌾 Silt: " ++ jStr silt ++ "%\n" else "") ++
    (if jNeStr ph "Not available" then "- 🧪 pH: " ++ jStr ph ++ "\n" else "") ++
    (if jNeStr organic "Not available" then "- 🌿 Organic Matter: " ++ jStr organic ++ "%\n"
     else "")

/-- The STEP-1 prompt of `generate_treatment_recommendations`
(`src/qa_engine_agentic.py` lines 186-202). -/
def treatmentPrompt (ctx : AgContext) : String :=
  "You are an agricultural expert.\n\n**Context:**\n- Pest/Disease: " ++ ctx.pest_or_disease ++
  "\n- Plant: " ++ ctx.plant_type ++ "\n- Infestation Level: " ++ ctx.infestation_level ++
  " (CRITICAL: Use this exact level)\n- Location: Zip code " ++ ctx.zipcode ++
  "\n\n**Task:**\n1. Call get_weather(\"" ++ ctx.zipcode ++ "\") and get_soil_type(\"" ++
  ctx.zipcode ++
  "\")\n2. Write ONLY treatment advice (no products yet)\n\nWrite 1-2 short paragraphs:\n- Paragraph 1: Treatment approach for " ++
  ctx.infestation_level ++
  " infestation\n- Paragraph 2: Application method based on soil and weather\n\nDo NOT include products. Just write the brief treatment advice."

/-- The STEP-2 prompt of `generate_treatment_recommendations`
(`src/qa_engine_agentic.py` lines 207-219). -/
def productPrompt (ctx : AgContext) : String :=
  "Based on the treatment advice you just gave for " ++ ctx.pest_or_disease ++ " on " ++
  ctx.plant_type ++
  ", find products.\n\nCall search_amazon_products() 2-3 times with specific organic/natural product queries.\n\nFormat ONLY as:\n\n### 🛒 Recommended Products on Amazon\n\n**1. [Product Name](url)**\n\n**2. [Product Name](url)**\n\n**3. [Product Name](url)**"

/-- Embeds `generate_treatment_recommendations` from
`src/qa_engine_agentic.py` (lines 178-230): two sequential channel calls
with NO exception handling — either failure propagates to the caller. -/
def generate_treatment_recommendations (o : AgOracle) (ctx : AgContext) :
    Except String String := do
  let treatment_text ← o.send (treatmentPrompt ctx)
  let products_text ← o.send (productPrompt ctx)
  return "**Treatment Recommendations:**\n\n" ++ treatment_text ++ "\n\n" ++
    String.mk (List.replicate 70 '─') ++ "\n\n" ++ products_text

/-- The option-2 prompt (`src/qa_engine_agentic.py` lines 245-253). -/
def agSoilPrompt (ctx : AgContext) : String :=
  "The user can see their soil information above.\n\nProvide analysis in 2 SHORT paragraphs:\n\nParagraph 1: What this soil type means for " ++
  ctx.plant_type ++ " cultivation\n\nParagraph 2: How soil affects treatment for " ++
  ctx.pest_or_disease ++
  " (application adjustments, pH impact)\n\nKeep it concise - exactly 2 paragraphs."

/-- The option-3 prompt (`src/qa_engine_agentic.py` lines 262-270). -/
def agWeatherPrompt (ctx : AgContext) : String :=
  "The user can see their weather information above.\n\nProvide timing guidance in 2 short paragraphs:\n\nParagraph 1: Best application window in next 3 days for treating " ++
  ctx.pest_or_disease ++
  "\n\nParagraph 2: Why timing matters (rain, temperature, wind effects)\n\nKeep it BRIEF - exactly 2 paragraphs."

/-- The option-4 prompt (`src/qa_engine_agentic.py` lines 276-283). -/
def agMonitoringPrompt (ctx : AgContext) : String :=
  "Provide monitoring and prevention advice for " ++ ctx.pest_or_disease ++ " on " ++
  ctx.plant_type ++
  ".\n\nInclude:\n1. How often to check plants\n2. Signs of treatment success/failure\n3. Prevention tips\n\nKeep it to 2 paragraphs."

/-- The report-section soil prompt (`src/qa_engine_agentic.py` line 301). -/
def agReportSoilPrompt (ctx : AgContext) : String :=
  "Provide 2 paragraphs about how soil conditions affect treatment for " ++
  ctx.pest_or_disease ++ " on " ++ ctx.plant_type ++ "."

/-- The report-section weather prompt (`src/qa_engine_agentic.py` line
304). -/
def agReportWeatherPrompt : String :=
  "Provide 2 paragraphs about best treatment timing based on the weather forecast."

/-- The option-4 body, shared with option 5's recursive
`answer_menu_option(context, 4)` call (a literal argument, so the call is
written as this body). -/
def answerMonitoring (o : AgOracle) (ctx : AgContext) : Except String String := do
  let resp ← o.send (agMonitoringPrompt ctx)
  return resp

/-- The fixed agentic report template (`src/qa_engine_agentic.py` lines
310-342); the four section headers are kept as separate factors of the
concatenation. -/
def mkAgReport (treatment soil_display soil_analysis weather_display weather_analysis
    monitoring : String) : String :=
  let eq70 := String.mk (List.replicate 70 '═')
  let dash70 := String.mk (List.replicate 70 '─')
  "\n" ++ eq70 ++ "\n                    COMPREHENSIVE TREATMENT REPORT\n" ++ eq70 ++ "\n\n" ++
  "## 1️⃣ TREATMENT RECOMMENDATIONS" ++ ("\n\n" ++ treatment ++ "\n\n" ++ dash70 ++ "\n\n") ++
  "## 2️⃣ SOIL IMPACT ANALYSIS" ++
  ("\n\n" ++ soil_display ++ "\n\n" ++ soil_analysis ++ "\n\n" ++ dash70 ++ "\n\n") ++
  "## 3️⃣ WEATHER-BASED TIMING" ++
  ("\n\n" ++ weather_display ++ "\n\n" ++ weather_analysis ++ "\n\n" ++ dash70 ++ "\n\n") ++
  "## 4️⃣ MONITORING & PREVENTION" ++ ("\n\n" ++ monitoring ++ "\n\n" ++ eq70 ++ "\n")

/-- Embeds `answer_menu_option` from `src/qa_engine_agentic.py`
(lines 234-346).  There is NO `try`/`except` anywhere in this engine: every
`chat.send_message` failure propagates out of the dispatcher as the
`Except.error`, and in option 5 a failed step aborts all later steps. -/
def answer_menu_option (o : AgOracle) (ctx : AgContext) (option : ℕ) :
    Except String String :=
  match option with
  | 2 => do
    let soil_data := LocationService.get_soil_data o.geocode o.sfetch ctx.zipcode
    let soil_display := format_soil_display soil_data
    let resp ← o.send (agSoilPrompt ctx)
    return soil_display ++ "\n\n" ++ resp
  | 3 => do
    let weather_data := LocationService.get_weather_data o.geocode o.wfetch ctx.zipcode
    let weather_display := format_weather_display weather_data
    let resp ← o.send (agWeatherPrompt ctx)
    return weather_display ++ "\n\n" ++ resp
  | 4 => answerMonitoring o ctx
  | 5 => do
    let weather_data := LocationService.get_weather_data o.geocode o.wfetch ctx.zipcode
    let soil_data := LocationService.get_soil_data o.geocode o.sfetch ctx.zipcode
    let weather_display := format_weather_display weather_data
    let soil_display := format_soil_display soil_data
    let treatment ← generate_treatment_recommendations o ctx
    let soil_analysis ← o.send (agReportSoilPrompt ctx)
    let weather_analysis ← o.send agReportWeatherPrompt
    let monitoring ← answerMonitoring o ctx
    return mkAgReport treatment soil_display soil_analysis weather_display weather_analysis
      monitoring
  | _ => return "Invalid option"

/-- Embeds the agentic `ask_custom_question` from
`src/qa_engine_agentic.py` (lines 349-356): the question goes to the
channel verbatim and any exception propagates. -/
def ask_custom_question (o : AgOracle) (_ctx : AgContext) (question : String) :
    Except String String := do
  let resp ← o.send question
  return resp

end Agentic

/-- A concrete agentic session context. -/
def egAgCtx : Agentic.AgContext :=
  { pest_or_disease := "Aphids", severity := "Moderate", plant_type := "Tomato",
    infestation_level := "low", zipcode := "92336" }

/-- An agentic oracle whose every channel call raises. -/
def failAgOracle : Agentic.AgOracle :=
  { send := fun _ => .error "boom"
    geocode := fun _ => none
    wfetch := fun _ _ => .error "net down"
    sfetch := fun _ _ => .error "net down" }

/-- An agentic oracle whose every call succeeds. -/
def okAgOracle : Agentic.AgOracle :=
  { send := fun _ => .ok "analysis text"
    geocode := fun _ => some (34, -117)
    wfetch := fun _ _ => .ok ⟨.jstr "Fontana", .jstr "CA", []⟩
    sfetch := fun _ _ => .ok [] }

/-- An oracle that fails exactly on the option-1 prompt of the concrete
session and succeeds everywhere else. -/
def mixedOracle : Oracle :=
  { generate := fun p =>
      if p == option1Prompt egEngine then .error "boom" else .ok "advice text"
    amazon := fun q _ =>
      [.item ("Product for " ++ q) "$10" "https://www.amazon.com/dp/B000000001" "4.5"] }

/-- `s` contains the four given strings, in order, with arbitrary text
around them. -/
def containsInOrder4 (s h1 h2 h3 h4 : String) : Prop :=
  ∃ x0 x1 x2 x3 x4 : String,
    s = x0 ++ (h1 ++ (x1 ++ (h2 ++ (x2 ++ (h3 ++ (x3 ++ (h4 ++ x4)))))))

/- ===================================================================
   Sanity checks of the embeddings, helper lemmas, and the claims
   =================================================================== -/

-- quick sanity checks of the embedding on concrete detector outputs
example : PlantPestDetector.extract_primary_id
    "- **Plant Species**: Tomato\n- **Disease Name**: Early Blight" = "Tomato" := by decide
example : PlantPestDetector2.extract_primary_id
    "- **Plant Species**: Tomato\n- **Disease Name**: Early Blight" = "Tomato" := by decide
example : PlantPestDetector.extract_primary_id
    "- **Disease Name**: Early Blight\n- **Plant Species**: Tomato" = "Early Blight" := by decide
example : PlantPestDetector.extract_primary_id "no bullets here" = "Unidentified" := by decide
example : PlantPestDetector.extract_primary_id "- **Plant Species**: unknown" = "Unidentified" := by
  decide
example : PlantPestDetector2.extract_primary_id "the disease name: blight today" = "blight today" := by
  decide
example : PlantPestDetector.extract_subject_type "plant species: x\ninsect species: y" = "plant" := by
  decide
example : PlantPestDetector2.extract_subject_type "plant species: x\ninsect species: y" = "pest" := by
  decide

/- ===================================================================
   Helper lemmas about the string primitives
   =================================================================== -/

/-- A matched pattern is recovered by taking its length from the scanned
list. -/
theorem startsWithChars_take (p : List Char) :
    ∀ l, startsWithChars p l = true → l.take p.length = p := by
  induction p with
  | nil => intro l _; simp
  | cons a as ih =>
    intro l h
    cases l with
    | nil => simp [startsWithChars] at h
    | cons c cs =>
      simp [startsWithChars] at h
      simp [List.take, h.1, ih cs h.2]

/-- A line whose lowercase form starts with the disease-name bullet cannot
also start with the plant-species bullet. -/
theorem not_plant_of_disease (s : String)
    (h : pyStartsWith s "- **disease name**:" = true) :
    pyStartsWith s "- **plant species**:" = false := by
  unfold pyStartsWith at h ⊢
  cases hb : startsWithChars "- **plant species**:".data s.data with
  | false => rfl
  | true =>
    exfalso
    have h1 := startsWithChars_take _ _ h
    have h2 := startsWithChars_take _ _ hb
    have e1 : s.data.take 5 = "- **d".data := by
      have : (s.data.take ("- **disease name**:".data.length)).take 5 = "- **d".data := by
        rw [h1]; decide
      rwa [List.take_take] at this
    have e2 : s.data.take 5 = "- **p".data := by
      have : (s.data.take ("- **plant species**:".data.length)).take 5 = "- **p".data := by
        rw [h2]; decide
      rwa [List.take_take] at this
    rw [e1] at e2
    exact absurd e2 (by decide)

/-- Scanning lines that all fail the per-line check just moves past them
(Groq variant). -/
theorem scanLines1_append_none (pre rest : List String)
    (h : ∀ l ∈ pre, PlantPestDetector.lineValue l = none) :
    PlantPestDetector.scanLines (pre ++ rest) = PlantPestDetector.scanLines rest := by
  induction pre with
  | nil => rfl
  | cons a as ih =>
    have ha := h a (by simp)
    simp only [List.cons_append, PlantPestDetector.scanLines, ha]
    exact ih (fun l hl => h l (by simp [hl]))

/-- Scanning lines that all fail the per-line check just moves past them
(Gemini variant). -/
theorem scanLines2_append_none (pre rest : List String)
    (h : ∀ l ∈ pre, PlantPestDetector2.lineValue l = none) :
    PlantPestDetector2.scanLines (pre ++ rest) = PlantPestDetector2.scanLines rest := by
  induction pre with
  | nil => rfl
  | cons a as ih =>
    have ha := h a (by simp)
    simp only [List.cons_append, PlantPestDetector2.scanLines, ha]
    exact ih (fun l hl => h l (by simp [hl]))

/- ===================================================================
   Claims C1, C7, C10
   =================================================================== -/

/-- Claim C1, counterexample: a detector output listing a non-placeholder
plant species before a non-placeholder disease name makes both extractors
return the species, not the disease — the scan is first-matching-line-wins,
so disease name does NOT take priority when the plant-species line comes
first. -/
theorem claim_C1_counterexample :
    PlantPestDetector.extract_primary_id
      "- **Plant Species**: Tomato\n- **Disease Name**: Early Blight" = "Tomato" ∧
    PlantPestDetector2.extract_primary_id
      "- **Plant Species**: Tomato\n- **Disease Name**: Early Blight" = "Tomato" ∧
    "Tomato" ≠ "Early Blight" := by
  refine ⟨by decide, by decide, by decide⟩

/-- Claim C1 as amended: extraction is first-matching-line-wins.  For both
detector variants, if no line before the disease-name line yields a value
(in particular no earlier non-placeholder plant-species line), and the
disease-name line carries a non-empty non-placeholder value X, then
extraction returns X trimmed.  (For the Gemini variant the disease marker is
matched as a substring, the line must contain a colon, must not also carry
the insect marker, and the value is additionally stripped of asterisks.) -/
theorem claim_C1_amended :
    (∀ (content line X : String) (pre post : List String),
      PlantPestDetector.errorGuard content = false →
      pySplitlines content = pre ++ line :: post →
      (∀ l ∈ pre, PlantPestDetector.lineValue l = none) →
      pyStartsWith (pyLower line) "- **disease name**:" = true →
      pyStrip (pyAfterFirstColon line) = X →
      (X == "") = false →
      (["n/a", "none", "unknown", ""].contains (pyLower X)) = false →
      PlantPestDetector.extract_primary_id content = X) ∧
    (∀ (content line X : String) (pre post : List String),
      PlantPestDetector2.errorGuard content = false →
      pySplitlines content = pre ++ line :: post →
      (∀ l ∈ pre, PlantPestDetector2.lineValue l = none) →
      strIn "insect species" (pyStrip (pyLower line)) = false →
      strIn "disease name" (pyStrip (pyLower line)) = true →
      strIn ":" line = true →
      pyStrip (removeStars (pyStrip (pyAfterFirstColon line))) = X →
      (X == "") = false →
      (["n/a", "none", "unknown", ""].contains (pyLower X)) = false →
      PlantPestDetector2.extract_primary_id content = X) := by
  constructor
  · intro content line X pre post hguard hsplit hpre hdn hval hne hplace
    unfold PlantPestDetector.extract_primary_id
    rw [hguard]
    simp only [Bool.false_eq_true, if_false, hsplit]
    rw [scanLines1_append_none pre _ hpre]
    have hplant := not_plant_of_disease (pyLower line) hdn
    simp only [PlantPestDetector.scanLines, PlantPestDetector.lineValue,
      hplant, hdn, hval, hne, hplace, Bool.false_and, Bool.true_and,
      Bool.not_false, Bool.and_self, if_false, if_true]
    simp
  · intro content line X pre post hguard hsplit hpre hins hdn hcolon hval hne hplace
    unfold PlantPestDetector2.extract_primary_id
    rw [hguard]
    simp only [Bool.false_eq_true, if_false, hsplit]
    rw [scanLines2_append_none pre _ hpre]
    simp only [PlantPestDetector2.scanLines, PlantPestDetector2.lineValue,
      hins, hdn, hcolon, hval, hne, hplace, Bool.false_and, Bool.true_and,
      Bool.not_false, Bool.and_self, if_false, if_true]
    simp

/-- Claim C1 witness: with the disease line first, both variants return the
trimmed disease name. -/
theorem claim_C1_witness :
    PlantPestDetector.extract_primary_id
      "- **Disease Name**: Early Blight\n- **Plant Species**: Tomato" = "Early Blight" ∧
    PlantPestDetector2.extract_primary_id
      "- **Disease Name**: Early Blight\n- **Plant Species**: Tomato" = "Early Blight" := by
  constructor
  · exact claim_C1_amended.1
      "- **Disease Name**: Early Blight\n- **Plant Species**: Tomato"
      "- **Disease Name**: Early Blight" "Early Blight"
      [] ["- **Plant Species**: Tomato"]
      (by decide) (by decide) (by intro l hl; simp at hl)
      (by decide) (by decide) (by decide) (by decide)
  · exact claim_C1_amended.2
      "- **Disease Name**: Early Blight\n- **Plant Species**: Tomato"
      "- **Disease Name**: Early Blight" "Early Blight"
      [] ["- **Plant Species**: Tomato"]
      (by decide) (by decide) (by intro l hl; simp at hl)
      (by decide) (by decide) (by decide) (by decide) (by decide) (by decide)

/-- Claim C7, counterexample: the error-prefix guard fires before the line
scan, so an error-shaped detector output with no bullet prefixes returns
"Error", not "Unidentified"; moreover the Gemini variant matches markers as
substrings, so a prefix-free line containing "disease name:" mid-line
returns its value instead of the sentinel. -/
theorem claim_C7_counterexample :
    PlantPestDetector.extract_primary_id "API request failed: timeout" = "Error" ∧
    PlantPestDetector2.extract_primary_id "API request failed: timeout" = "Error" ∧
    PlantPestDetector2.extract_primary_id "the disease name: blight today" = "blight today" := by
  refine ⟨by decide, by decide, by decide⟩

/-- Claim C7 as amended: for non-empty outputs not starting with "Error" or
"API", the Groq variant returns "Unidentified" when no line starts
(case-insensitively) with one of the three bullet prefixes, and the Gemini
variant returns "Unidentified" when no line both contains one of the three
markers (as a substring of the lowercased stripped line) and contains a
colon. -/
theorem claim_C7_amended :
    (∀ content : String,
      PlantPestDetector.errorGuard content = false →
      (∀ l ∈ pySplitlines content,
        pyStartsWith (pyLower l) "- **plant species**:" = false ∧
        pyStartsWith (pyLower l) "- **disease name**:" = false ∧
        pyStartsWith (pyLower l) "- **insect species**:" = false) →
      PlantPestDetector.extract_primary_id content = "Unidentified") ∧
    (∀ content : String,
      PlantPestDetector2.errorGuard content = false →
      (∀ l ∈ pySplitlines content,
        (strIn "insect species" (pyStrip (pyLower l)) && strIn ":" l) = false ∧
        (strIn "disease name" (pyStrip (pyLower l)) && strIn ":" l) = false ∧
        (strIn "plant species" (pyStrip (pyLower l)) && strIn ":" l) = false) →
      PlantPestDetector2.extract_primary_id content = "Unidentified") := by
  constructor
  · intro content hguard hnone
    unfold PlantPestDetector.extract_primary_id
    rw [hguard]
    simp only [Bool.false_eq_true, if_false]
    have : pySplitlines content = pySplitlines content ++ [] := by simp
    rw [this, scanLines1_append_none _ _ ?_]
    · rfl
    · intro l hl
      obtain ⟨h1, h2, h3⟩ := hnone l hl
      simp only [PlantPestDetector.lineValue, h1, h2, h3, Bool.false_and, if_false]
      simp
  · intro content hguard hnone
    unfold PlantPestDetector2.extract_primary_id
    rw [hguard]
    simp only [Bool.false_eq_true, if_false]
    have : pySplitlines content = pySplitlines content ++ [] := by simp
    rw [this, scanLines2_append_none _ _ ?_]
    · rfl
    · intro l hl
      obtain ⟨h1, h2, h3⟩ := hnone l hl
      simp only [PlantPestDetector2.lineValue, h1, h2, h3, Bool.false_and, if_false]
      simp

/-- Claim C7 witness: a prefix-free, marker-free output yields the sentinel
in both variants. -/
theorem claim_C7_witness :
    PlantPestDetector.extract_primary_id "hello\nworld" = "Unidentified" ∧
    PlantPestDetector2.extract_primary_id "hello\nworld" = "Unidentified" := by
  constructor
  · exact claim_C7_amended.1 "hello\nworld" (by decide) (by decide)
  · exact claim_C7_amended.2 "hello\nworld" (by decide) (by decide)

/-- Claim C10: the two variants of `extract_subject_type` disagree on every
text containing both a "plant species:" and an "insect species:" marker
(without an error prefix): the Groq variant checks plant first and answers
"plant", the Gemini variant checks insect first and answers "pest". -/
theorem claim_C10 :
    ∀ content : String,
      strIn "plant species:" (pyLower content) = true →
      strIn "insect species:" (pyLower content) = true →
      pyStartsWith content "Error" = false →
      pyStartsWith content "API" = false →
      PlantPestDetector.extract_subject_type content = "plant" ∧
      PlantPestDetector2.extract_subject_type content = "pest" := by
  intro content hplant hinsect herr hapi
  have hne' : content ≠ "" := by
    intro h
    rw [h] at hplant
    exact absurd hplant (by decide)
  have hne : (content == "") = false := beq_eq_false_iff_ne.mpr hne'
  have hguard1 : PlantPestDetector.errorGuard content = false := by
    simp [PlantPestDetector.errorGuard, hne, herr, hapi]
  have hguard2 : PlantPestDetector2.errorGuard content = false := by
    simp [PlantPestDetector2.errorGuard, hne, herr, hapi]
  constructor
  · simp only [PlantPestDetector.extract_subject_type, hguard1, hplant,
      Bool.false_eq_true, if_false, Bool.true_or, if_true]
  · simp only [PlantPestDetector2.extract_subject_type, hguard2, hinsect,
      Bool.false_eq_true, if_false, Bool.true_or, if_true]

/-- Claim C10 witness: a concrete text carrying both markers. -/
theorem claim_C10_witness :
    PlantPestDetector.extract_subject_type "plant species: rose\ninsect species: aphid" = "plant" ∧
    PlantPestDetector2.extract_subject_type "plant species: rose\ninsect species: aphid" = "pest" :=
  claim_C10 "plant species: rose\ninsect species: aphid"
    (by decide) (by decide) (by decide) (by decide)

-- sanity checks of the texture embedding
example : LocationService._determine_texture (.pnum 45) (.pnum 30) (.pnum 25) = "Clay" := by decide
example : LocationService._determine_texture (.pnum 45) .pnone .pnone = "Unknown" := by decide
example : LocationService._determine_texture (.pstr "45") (.pstr "abc") (.pnum 25) = "Unknown" := by
  decide
example : LocationService._determine_texture (.pnum 10) (.pnum 20) (.pnum 70) = "Silt Loam" := by
  decide

/- ===================================================================
   Claims C2 and C9
   =================================================================== -/

/-- Claim C2, counterexample: with clay=45 and sand, silt absent,
`_determine_texture` does NOT return "Clay" — the
`if not all([clay, sand, silt])` membership check runs before the clay ≥ 40
rule, so the missing sand and silt force "Unknown". -/
theorem claim_C2_counterexample :
    LocationService._determine_texture (.pnum 45) .pnone .pnone ≠ "Clay" := by decide

/-- Claim C2 as amended: on the literal input clay=45, sand=none, silt=none,
texture classification returns "Unknown": the all-components-present check
is consulted before the clay ≥ 40 rule, so absent sand/silt prevent the
"Clay" result. -/
theorem claim_C2_amended :
    LocationService._determine_texture (.pnum 45) .pnone .pnone = "Unknown" := by decide

/-- Every branch of the classification ladder lands in the fixed codomain. -/
theorem textureFromPercents_mem (c s t : ℚ) :
    LocationService.textureFromPercents c s t ∈ LocationService.textureCodomain := by
  unfold LocationService.textureFromPercents LocationService.textureCodomain
  split_ifs <;> simp

/-- A bad component converts to an exception, `None`, or `0.0`. -/
theorem convert_of_bad (v : PyVal) (h : LocationService.badComponent v) :
    LocationService.convertComponent v = .error () ∨
    LocationService.convertComponent v = .ok none ∨
    LocationService.convertComponent v = .ok (some 0) := by
  cases v with
  | pnone => right; left; rfl
  | pnum x =>
    simp only [LocationService.badComponent] at h
    right; left
    simp [LocationService.convertComponent, pyTruthy, h]
  | pstr s =>
    simp only [LocationService.badComponent] at h
    by_cases hs : s = ""
    · right; left; simp [LocationService.convertComponent, pyTruthy, hs]
    · by_cases hn : s = "None"
      · right; left; simp [LocationService.convertComponent, pyTruthy, hn, hs]
      · rcases h with h | h
        · left
          simp [LocationService.convertComponent, pyTruthy, hs, hn, h]
        · right; right
          simp [LocationService.convertComponent, pyTruthy, hs, hn, h]

/-- The glue returns "Unknown" whenever one position carries an exception,
a `None`, or a zero. -/
theorem textureOfConverted_unknown (a b c : Except Unit (Option ℚ))
    (h : (a = .error () ∨ a = .ok none ∨ a = .ok (some 0)) ∨
         (b = .error () ∨ b = .ok none ∨ b = .ok (some 0)) ∨
         (c = .error () ∨ c = .ok none ∨ c = .ok (some 0))) :
    LocationService.textureOfConverted a b c = "Unknown" := by
  rcases a with ea | oa
  · cases b <;> cases c <;> rfl
  · rcases oa with _ | xa
    · cases b <;> cases c <;> rfl
    · rcases b with eb | ob
      · cases c <;> rfl
      · rcases ob with _ | xb
        · cases c <;> rfl
        · rcases c with ec | oc
          · rfl
          · rcases oc with _ | xc
            · rfl
            · simp only [LocationService.textureOfConverted]
              rcases h with (h | h | h) | (h | h | h) | (h | h | h) <;> simp_all

/-- Claim C9: `_determine_texture` is total into the fixed nine-value
codomain, and any absent, non-numeric, or zero component forces "Unknown"
(a 0% component is treated exactly like missing data). -/
theorem claim_C9 :
    ∀ clay sand silt : PyVal,
      LocationService._determine_texture clay sand silt ∈ LocationService.textureCodomain ∧
      (LocationService.badComponent clay ∨ LocationService.badComponent sand ∨
          LocationService.badComponent silt →
        LocationService._determine_texture clay sand silt = "Unknown") := by
  intro clay sand silt
  constructor
  · unfold LocationService._determine_texture
    generalize LocationService.convertComponent clay = a
    generalize LocationService.convertComponent sand = b
    generalize LocationService.convertComponent silt = c
    rcases a with ea | (_ | xa)
    · cases b <;> cases c <;> simp [LocationService.textureOfConverted,
        LocationService.textureCodomain]
    · cases b <;> cases c <;> simp [LocationService.textureOfConverted,
        LocationService.textureCodomain]
    · rcases b with eb | (_ | xb)
      · cases c <;> simp [LocationService.textureOfConverted, LocationService.textureCodomain]
      · cases c <;> simp [LocationService.textureOfConverted, LocationService.textureCodomain]
      · rcases c with ec | (_ | xc)
        · simp [LocationService.textureOfConverted, LocationService.textureCodomain]
        · simp [LocationService.textureOfConverted, LocationService.textureCodomain]
        · simp only [LocationService.textureOfConverted]
          split_ifs with h
          · simp [LocationService.textureCodomain]
          · exact textureFromPercents_mem xa xb xc
  · intro hbad
    unfold LocationService._determine_texture
    refine textureOfConverted_unknown _ _ _ ?_
    rcases hbad with h | h | h
    · exact Or.inl (convert_of_bad _ h)
    · exact Or.inr (Or.inl (convert_of_bad _ h))
    · exact Or.inr (Or.inr (convert_of_bad _ h))

/-- Claim C9 witness: instantiated at clay absent, non-zero sand and silt. -/
theorem claim_C9_witness :
    LocationService._determine_texture .pnone (.pnum 30) (.pnum 30) ∈
      LocationService.textureCodomain ∧
    LocationService._determine_texture .pnone (.pnum 30) (.pnum 30) = "Unknown" :=
  ⟨(claim_C9 .pnone (.pnum 30) (.pnum 30)).1,
   (claim_C9 .pnone (.pnum 30) (.pnum 30)).2 (Or.inl trivial)⟩

/- ===================================================================
   Claim C6
   =================================================================== -/

/-- Claim C6: whenever geocoding yields no coordinates, both fetches return
a record carrying an `error` field and no `current` or `soil_properties`
content. -/
theorem claim_C6 :
    ∀ (geocode : String → Option (ℚ × ℚ))
      (fetch : ℚ → ℚ → Except String LocationService.ForecastFetch)
      (sda : ℚ → ℚ → Except String (List (List JVal)))
      (zipcode : String),
      geocode zipcode = none →
      hasKey (LocationService.get_weather_data geocode fetch zipcode) "error" = true ∧
      hasKey (LocationService.get_weather_data geocode fetch zipcode) "current" = false ∧
      hasKey (LocationService.get_weather_data geocode fetch zipcode) "soil_properties" = false ∧
      hasKey (LocationService.get_soil_data geocode sda zipcode) "error" = true ∧
      hasKey (LocationService.get_soil_data geocode sda zipcode) "current" = false ∧
      hasKey (LocationService.get_soil_data geocode sda zipcode) "soil_properties" = false := by
  intro geocode fetch sda zipcode h
  unfold LocationService.get_weather_data LocationService.get_soil_data
  rw [h]
  refine ⟨rfl, rfl, rfl, rfl, rfl, rfl⟩

/-- Claim C6 witness: a geocoder that fails on the concrete zip "99999". -/
theorem claim_C6_witness :
    hasKey (LocationService.get_weather_data (fun _ => none)
      (fun _ _ => .error "unreached") "99999") "error" = true ∧
    hasKey (LocationService.get_weather_data (fun _ => none)
      (fun _ _ => .error "unreached") "99999") "current" = false ∧
    hasKey (LocationService.get_weather_data (fun _ => none)
      (fun _ _ => .error "unreached") "99999") "soil_properties" = false ∧
    hasKey (LocationService.get_soil_data (fun _ => none)
      (fun _ _ => .error "unreached") "99999") "error" = true ∧
    hasKey (LocationService.get_soil_data (fun _ => none)
      (fun _ _ => .error "unreached") "99999") "current" = false ∧
    hasKey (LocationService.get_soil_data (fun _ => none)
      (fun _ _ => .error "unreached") "99999") "soil_properties" = false :=
  claim_C6 (fun _ => none) (fun _ _ => .error "unreached")
    (fun _ _ => .error "unreached") "99999" rfl

-- sanity checks of the product-search embedding
example : SerperProductSearch._validate_amazon_url
    "https://www.amazon.com/dp/B000123456" = true := by decide
example : SerperProductSearch._validate_amazon_url
    "https://www.amazon.com/dp/short" = false := by decide
example : SerperProductSearch._validate_amazon_url
    "https://www.amazon.com/s?k=neem+oil" = true := by decide
example : SerperProductSearch.search_products (.error "boom") "neem oil" 3 =
    [⟨"Search results for: neem oil", "https://www.amazon.com/s?k=neem+oil"⟩] := by decide

/- ===================================================================
   Claim C8
   =================================================================== -/

/-- Claim C8, counterexample: a successful Serper response whose `organic`
list is empty makes `search_products` return the empty list — no fallback
search-link entry is produced, contradicting "degrades to a single fallback
entry rather than returning nothing" for the no-usable-results case. -/
theorem claim_C8_counterexample :
    SerperProductSearch.search_products (.ok ⟨[]⟩) "neem oil" 3 = [] := by decide

/-- The collection loop never exceeds the cap (when the accumulator is
within the cap) and only adds validated links. -/
theorem collectProducts_bounded (max_results : ℕ) :
    ∀ (items : List SerperProductSearch.OrganicItem)
      (acc : List SerperProductSearch.SProduct),
      acc.length ≤ max_results →
      (∀ p ∈ acc, SerperProductSearch._validate_amazon_url p.url = true) →
      (SerperProductSearch.collectProducts max_results items acc).length ≤ max_results ∧
      ∀ p ∈ SerperProductSearch.collectProducts max_results items acc,
        SerperProductSearch._validate_amazon_url p.url = true := by
  intro items
  induction items with
  | nil => intro acc hlen hval; exact ⟨hlen, hval⟩
  | cons item rest ih =>
    intro acc hlen hval
    simp only [SerperProductSearch.collectProducts]
    by_cases hbreak : acc.length ≥ max_results
    · simp only [hbreak, if_true]
      exact ⟨hlen, hval⟩
    · simp only [hbreak, if_false]
      by_cases hv : SerperProductSearch._validate_amazon_url (item.link.getD "#") = true
      · simp only [hv, if_true]
        refine ih _ ?_ ?_
        · simp only [List.length_append, List.length_cons, List.length_nil]
          omega
        · intro p hp
          rcases List.mem_append.mp hp with hp | hp
          · exact hval p hp
          · simp only [List.mem_singleton] at hp
            rw [hp]
            exact hv
      · simp only [Bool.not_eq_true] at hv
        simp only [hv, Bool.false_eq_true, if_false]
        exact ih _ hlen hval

/-- Claim C8 as amended: `search_products` never raises; an exception in
the request/parse path degrades to the single fallback search-link entry;
a successful response with an empty `organic` list returns the EMPTY list
(no fallback); and a successful response with a non-empty `organic` list
returns either the single view-search fallback entry (when nothing
validates or the cap is 0) or a non-empty list of at most `max_results`
entries, each of whose URLs passed marketplace-URL validation. -/
theorem claim_C8_amended :
    ∀ (resp : Except String SerperProductSearch.SerperData) (query : String)
      (max_results : ℕ),
      (∀ e, resp = .error e →
        SerperProductSearch.search_products resp query max_results =
          [⟨"Search results for: " ++ query,
            "https://www.amazon.com/s?k=" ++ SerperProductSearch.plusify query⟩]) ∧
      (∀ data, resp = .ok data → data.organic = [] →
        SerperProductSearch.search_products resp query max_results = []) ∧
      (∀ data, resp = .ok data → data.organic ≠ [] →
        SerperProductSearch.search_products resp query max_results =
          [⟨"View search results for: " ++ query,
            "https://www.amazon.com/s?k=" ++ SerperProductSearch.plusify query⟩] ∨
        (SerperProductSearch.search_products resp query max_results ≠ [] ∧
         (SerperProductSearch.search_products resp query max_results).length ≤ max_results ∧
         ∀ p ∈ SerperProductSearch.search_products resp query max_results,
           SerperProductSearch._validate_amazon_url p.url = true)) := by
  intro resp query max_results
  refine ⟨?_, ?_, ?_⟩
  · intro e he
    rw [he]
    rfl
  · intro data hd horg
    rw [hd]
    simp [SerperProductSearch.search_products, SerperProductSearch._parse_response, horg]
  · intro data hd horg
    rw [hd]
    simp only [SerperProductSearch.search_products, SerperProductSearch._parse_response]
    have hne : data.organic.isEmpty = false := by
      cases h : data.organic with
      | nil => exact absurd h horg
      | cons a l => simp [List.isEmpty]
    rw [hne]
    simp only [Bool.false_eq_true, if_false]
    by_cases hp : (SerperProductSearch.collectProducts max_results data.organic []).isEmpty = true
    · left
      simp [hp]
    · right
      simp only [Bool.not_eq_true] at hp
      rw [hp]
      simp only [Bool.false_eq_true, if_false]
      have hcb := collectProducts_bounded max_results data.organic []
        (by simp) (by intro p hp; simp at hp)
      refine ⟨?_, hcb.1, hcb.2⟩
      intro hnil
      rw [hnil] at hp
      simp [List.isEmpty] at hp

/-- Claim C8 witness: the exception fallback, the empty-organic empty
result, and the non-empty-organic disjunct at concrete inputs. -/
theorem claim_C8_witness :
    SerperProductSearch.search_products (.error "boom") "bt spray" 2 =
      [⟨"Search results for: bt spray", "https://www.amazon.com/s?k=bt+spray"⟩] ∧
    SerperProductSearch.search_products (.ok ⟨[]⟩) "bt spray" 2 = [] ∧
    (SerperProductSearch.search_products
        (.ok ⟨[⟨some "Neem Oil", some "https://www.amazon.com/dp/B000123456"⟩]⟩)
        "bt spray" 2 =
      [⟨"View search results for: bt spray", "https://www.amazon.com/s?k=bt+spray"⟩] ∨
     (SerperProductSearch.search_products
        (.ok ⟨[⟨some "Neem Oil", some "https://www.amazon.com/dp/B000123456"⟩]⟩)
        "bt spray" 2 ≠ [] ∧
      (SerperProductSearch.search_products
        (.ok ⟨[⟨some "Neem Oil", some "https://www.amazon.com/dp/B000123456"⟩]⟩)
        "bt spray" 2).length ≤ 2 ∧
      ∀ p ∈ SerperProductSearch.search_products
        (.ok ⟨[⟨some "Neem Oil", some "https://www.amazon.com/dp/B000123456"⟩]⟩)
        "bt spray" 2,
        SerperProductSearch._validate_amazon_url p.url = true)) :=
  ⟨(claim_C8_amended (.error "boom") "bt spray" 2).1 "boom" rfl,
   (claim_C8_amended (.ok ⟨[]⟩) "bt spray" 2).2.1 ⟨[]⟩ rfl rfl,
   (claim_C8_amended
      (.ok ⟨[⟨some "Neem Oil", some "https://www.amazon.com/dp/B000123456"⟩]⟩)
      "bt spray" 2).2.2
     ⟨[⟨some "Neem Oil", some "https://www.amazon.com/dp/B000123456"⟩]⟩ rfl (by simp)⟩

-- sanity checks: the dispatcher evaluates on concrete sessions
example : Engine.hasContext egEngine = true := rfl
example : (answer_menu_selection okOracle egEngine 2).2.conversation_history.length = 1 := by
  decide
example : (answer_menu_selection failOracle egEngine 1).2.conversation_history.length = 0 := by
  decide
example : (answer_menu_selection failOracle egEngine 1).1 =
    "Error generating recommendations: boom" := by decide
example : (answer_menu_selection okOracle egEngine 5).2.conversation_history.length = 5 := by
  decide
example : (answer_menu_selection failOracle egEngine 5).2.conversation_history.length = 3 := by
  decide
example : (ask_custom_question okOracle egEngine "when?").2.conversation_history.length = 1 := by
  decide

/- ===================================================================
   State lemmas for the dispatcher branches
   =================================================================== -/

/-- Option 1 only appends its entry when the model call succeeds, and
changes nothing else of the state. -/
theorem answerOption1_state (o : Oracle) (st : Engine) (h : st.hasContext = true) :
    ∃ δ : List Entry,
      (answerOption1 o st).2 =
        { st with conversation_history := st.conversation_history ++ δ } ∧
      δ.length = (if (o.generate (option1Prompt st)).isOk then 1 else 0) := by
  unfold answerOption1
  rw [h]
  cases hg : o.generate (option1Prompt st) with
  | error e =>
    refine ⟨[], ?_, ?_⟩
    · simp [hg]
    · simp [hg, Except.isOk, Except.toBool]
  | ok txt =>
    refine ⟨[.menu_selection 1 (option1Answer o st (pyStrip txt))], ?_, ?_⟩
    · simp [hg]
    · simp [hg, Except.isOk, Except.toBool]

/-- Option 2 always appends exactly one entry. -/
theorem answerOption2_state (o : Oracle) (st : Engine) (h : st.hasContext = true) :
    ∃ δ : List Entry,
      (answerOption2 o st).2 =
        { st with conversation_history := st.conversation_history ++ δ } ∧
      δ.length = 1 := by
  unfold answerOption2
  rw [h]
  cases hg : o.generate (option2Prompt st) with
  | error e =>
    refine ⟨[.menu_selection 2 (soilInfoDisplay (dGetDict st.soil "soil_properties") ++
      "\n\nError generating analysis: " ++ e)], ?_, rfl⟩
    simp [hg]
  | ok txt =>
    refine ⟨[.menu_selection 2 (soilInfoDisplay (dGetDict st.soil "soil_properties") ++
      "\n\n" ++ pyStrip txt)], ?_, rfl⟩
    simp [hg]

/-- Option 3 always appends exactly one entry. -/
theorem answerOption3_state (o : Oracle) (st : Engine) (h : st.hasContext = true) :
    ∃ δ : List Entry,
      (answerOption3 o st).2 =
        { st with conversation_history := st.conversation_history ++ δ } ∧
      δ.length = 1 := by
  unfold answerOption3
  rw [h]
  cases hg : o.generate (option3Prompt st) with
  | error e =>
    refine ⟨[.menu_selection 3 (weatherDisplay st ++ "\n\nError: " ++ e)], ?_, rfl⟩
    simp [hg]
  | ok txt =>
    refine ⟨[.menu_selection 3 (weatherDisplay st ++ "\n\n" ++ pyStrip txt)], ?_, rfl⟩
    simp [hg]

/-- Option 4 only appends its entry when the model call succeeds. -/
theorem answerOption4_state (o : Oracle) (st : Engine) (h : st.hasContext = true) :
    ∃ δ : List Entry,
      (answerOption4 o st).2 =
        { st with conversation_history := st.conversation_history ++ δ } ∧
      δ.length = (if (o.generate (option4Prompt st)).isOk then 1 else 0) := by
  unfold answerOption4
  rw [h]
  cases hg : o.generate (option4Prompt st) with
  | error e =>
    refine ⟨[], ?_, ?_⟩
    · simp [hg]
    · simp [hg, Except.isOk, Except.toBool]
  | ok txt =>
    refine ⟨[.menu_selection 4 (pyStrip txt)], ?_, ?_⟩
    · simp [hg]
    · simp [hg, Except.isOk, Except.toBool]

/-- A custom question only appends its entry when the model call
succeeds. -/
theorem ask_custom_question_state (o : Oracle) (st : Engine) (q : String)
    (h : (match st.pest_or_disease with
          | some s => !(s == "")
          | none => false) = true) :
    ∃ δ : List Entry,
      (ask_custom_question o st q).2 =
        { st with conversation_history := st.conversation_history ++ δ } ∧
      δ.length = (if (o.generate (customPrompt st q)).isOk then 1 else 0) := by
  unfold ask_custom_question
  rw [h]
  cases hg : o.generate (customPrompt st q) with
  | error e =>
    refine ⟨[], ?_, ?_⟩
    · simp [hg]
    · simp [hg, Except.isOk, Except.toBool]
  | ok txt =>
    refine ⟨[.custom_question q (pyStrip txt)], ?_, ?_⟩
    · simp [hg]
    · simp [hg, Except.isOk, Except.toBool]

/-- With the guard satisfied, option 5 runs the four branch functions in
order, returns the composed report, and appends exactly the one
`detailed_report` entry after the sub-invocations' own appends. -/
theorem answer_menu_selection_five (o : Oracle) (st : Engine) (h : st.hasContext = true) :
    answer_menu_selection o st 5 =
      ((mkDetailedReport (answerOption1 o st).1
          (answerOption2 o (answerOption1 o st).2).1
          (answerOption3 o (answerOption2 o (answerOption1 o st).2).2).1
          (answerOption4 o (answerOption3 o (answerOption2 o (answerOption1 o st).2).2).2).1),
        { (answerOption4 o (answerOption3 o (answerOption2 o (answerOption1 o st).2).2).2).2 with
          conversation_history :=
            (answerOption4 o
              (answerOption3 o (answerOption2 o (answerOption1 o st).2).2).2).2.conversation_history
            ++ [Entry.detailed_report (mkDetailedReport (answerOption1 o st).1
                  (answerOption2 o (answerOption1 o st).2).1
                  (answerOption3 o (answerOption2 o (answerOption1 o st).2).2).1
                  (answerOption4 o
                    (answerOption3 o (answerOption2 o (answerOption1 o st).2).2).2).1)] }) := by
  unfold answer_menu_selection
  rw [h]
  rfl

/- ===================================================================
   Claim C3
   =================================================================== -/

/-- Claim C3, counterexample: on a concrete fully-initialized session with
every model call succeeding, one invocation of the Detailed Report branch
leaves FIVE entries in the engine's conversation log (one per sub-option
plus the report entry), not one. -/
theorem claim_C3_counterexample :
    (answer_menu_selection okOracle egEngine 5).2.conversation_history.length = 5 ∧
    (answer_menu_selection okOracle egEngine 5).2.conversation_history.length ≠
      egEngine.conversation_history.length + 1 := by
  refine ⟨by decide, by decide⟩

/-- Claim C3 as amended, for the engine-owned conversation log of
`AgriQAEngine`: options 2 and 3 append exactly one entry per invocation;
options 1, 4 and custom questions append exactly one entry when their model
call succeeds and none when it raises; the Detailed Report branch appends
its one report entry PLUS the entries of its four sub-invocations — three
entries when every model call fails, five when all succeed.  (The UI-level
log of `app.py` does append exactly one tuple per branch, but the claim's
cited log is the engine's.) -/
theorem claim_C3_amended :
    ∀ (o : Oracle) (st : Engine) (q : String),
      Engine.hasContext st = true →
      ((answer_menu_selection o st 1).2.conversation_history.length =
        st.conversation_history.length +
          (if (o.generate (option1Prompt st)).isOk then 1 else 0)) ∧
      ((answer_menu_selection o st 2).2.conversation_history.length =
        st.conversation_history.length + 1) ∧
      ((answer_menu_selection o st 3).2.conversation_history.length =
        st.conversation_history.length + 1) ∧
      ((answer_menu_selection o st 4).2.conversation_history.length =
        st.conversation_history.length +
          (if (o.generate (option4Prompt st)).isOk then 1 else 0)) ∧
      ((ask_custom_question o st q).2.conversation_history.length =
        st.conversation_history.length +
          (if (o.generate (customPrompt st q)).isOk then 1 else 0)) ∧
      ((answer_menu_selection o st 5).2.conversation_history.length =
        st.conversation_history.length + 3 +
          (if (o.generate (option1Prompt st)).isOk then 1 else 0) +
          (if (o.generate (option4Prompt st)).isOk then 1 else 0)) := by
  intro o st q h
  have hpest : (match st.pest_or_disease with
                | some s => !(s == "")
                | none => false) = true := by
    unfold Engine.hasContext at h
    rw [Bool.and_eq_true] at h
    exact h.1
  obtain ⟨δ1, hs1, hl1⟩ := answerOption1_state o st h
  obtain ⟨δ2', hs2', hl2'⟩ := answerOption2_state o st h
  obtain ⟨δ3', hs3', hl3'⟩ := answerOption3_state o st h
  obtain ⟨δ4', hs4', hl4'⟩ := answerOption4_state o st h
  obtain ⟨δq, hsq, hlq⟩ := ask_custom_question_state o st q hpest
  refine ⟨?_, ?_, ?_, ?_, ?_, ?_⟩
  · show (answerOption1 o st).2.conversation_history.length = _
    rw [hs1]
    simp [hl1]
  · show (answerOption2 o st).2.conversation_history.length = _
    rw [hs2']
    simp [hl2']
  · show (answerOption3 o st).2.conversation_history.length = _
    rw [hs3']
    simp [hl3']
  · show (answerOption4 o st).2.conversation_history.length = _
    rw [hs4']
    simp [hl4']
  · rw [hsq]
    simp [hlq]
  · have h1 : ((answerOption1 o st).2).hasContext = true := by rw [hs1]; exact h
    obtain ⟨δ2, hs2, hl2⟩ := answerOption2_state o (answerOption1 o st).2 h1
    have h2 : ((answerOption2 o (answerOption1 o st).2).2).hasContext = true := by
      rw [hs2]; exact h1
    obtain ⟨δ3, hs3, hl3⟩ :=
      answerOption3_state o (answerOption2 o (answerOption1 o st).2).2 h2
    have h3 : ((answerOption3 o (answerOption2 o (answerOption1 o st).2).2).2).hasContext
        = true := by
      rw [hs3]; exact h2
    obtain ⟨δ4, hs4, hl4⟩ :=
      answerOption4_state o (answerOption3 o (answerOption2 o (answerOption1 o st).2).2).2 h3
    have hp4 : option4Prompt
        (answerOption3 o (answerOption2 o (answerOption1 o st).2).2).2 = option4Prompt st := by
      rw [hs3, hs2, hs1]
      rfl
    rw [hp4] at hl4
    have L1 : (answerOption1 o st).2.conversation_history.length =
        st.conversation_history.length + δ1.length := by
      rw [hs1]; simp
    have L2 : (answerOption2 o (answerOption1 o st).2).2.conversation_history.length =
        (answerOption1 o st).2.conversation_history.length + δ2.length := by
      rw [hs2]; simp
    have L3 : (answerOption3 o
        (answerOption2 o (answerOption1 o st).2).2).2.conversation_history.length =
        (answerOption2 o (answerOption1 o st).2).2.conversation_history.length + δ3.length := by
      rw [hs3]; simp
    have L4 : (answerOption4 o (answerOption3 o
        (answerOption2 o (answerOption1 o st).2).2).2).2.conversation_history.length =
        (answerOption3 o
          (answerOption2 o (answerOption1 o st).2).2).2.conversation_history.length +
          δ4.length := by
      rw [hs4]; simp
    rw [answer_menu_selection_five o st h]
    simp only [List.length_append, List.length_cons, List.length_nil]
    rw [L4, L3, L2, L1, hl1, hl2, hl3, hl4]
    cases (o.generate (option1Prompt st)).isOk <;>
      cases (o.generate (option4Prompt st)).isOk <;> simp

/-- Claim C3 witness: the concrete all-success session — options 1-4 and a
custom question each append one entry, option 5 appends five. -/
theorem claim_C3_witness :
    (answer_menu_selection okOracle egEngine 1).2.conversation_history.length =
      egEngine.conversation_history.length +
        (if (okOracle.generate (option1Prompt egEngine)).isOk then 1 else 0) ∧
    (answer_menu_selection okOracle egEngine 5).2.conversation_history.length =
      egEngine.conversation_history.length + 3 +
        (if (okOracle.generate (option1Prompt egEngine)).isOk then 1 else 0) +
        (if (okOracle.generate (option4Prompt egEngine)).isOk then 1 else 0) :=
  ⟨(claim_C3_amended okOracle egEngine "when" rfl).1,
   (claim_C3_amended okOracle egEngine "when" rfl).2.2.2.2.2⟩

-- sanity checks of the agentic embedding
example : Agentic.answer_menu_option failAgOracle egAgCtx 4 = .error "boom" := rfl
example : Agentic.answer_menu_option failAgOracle egAgCtx 5 = .error "boom" := rfl
example : (Agentic.answer_menu_option okAgOracle egAgCtx 5).isOk = true := by decide
example : Agentic.ask_custom_question failAgOracle egAgCtx "why?" = .error "boom" := rfl

/- ===================================================================
   Claims C4 and C5
   =================================================================== -/

/-- The engine state's non-history fields drive the guard, so appending
history entries never changes it. -/
theorem hasContext_hist (st : Engine) (x : List Entry) :
    Engine.hasContext { st with conversation_history := x } = Engine.hasContext st := rfl

/-- Prompts read only the non-history fields. -/
theorem option3Prompt_hist (st : Engine) (x : List Entry) :
    option3Prompt { st with conversation_history := x } = option3Prompt st := rfl

/-- Prompts read only the non-history fields. -/
theorem option4Prompt_hist (st : Engine) (x : List Entry) :
    option4Prompt { st with conversation_history := x } = option4Prompt st := rfl

/-- The weather display reads only the non-history fields. -/
theorem weatherDisplay_hist (st : Engine) (x : List Entry) :
    weatherDisplay { st with conversation_history := x } = weatherDisplay st := rfl

/-- Option 3 on a history-extended state: the display block survives and
the model text (or inline error) is appended after it. -/
theorem answerOption3_eq (o : Oracle) (st : Engine) (x : List Entry) (r : String)
    (h : st.hasContext = true) (hg : o.generate (option3Prompt st) = .ok r) :
    answerOption3 o { st with conversation_history := x } =
      (weatherDisplay st ++ "\n\n" ++ pyStrip r,
       { st with conversation_history :=
          x ++ [.menu_selection 3 (weatherDisplay st ++ "\n\n" ++ pyStrip r)] }) := by
  unfold answerOption3
  rw [hasContext_hist, h, option3Prompt_hist, hg, weatherDisplay_hist]
  rfl

/-- Option 4 on a history-extended state, successful model call. -/
theorem answerOption4_eq (o : Oracle) (st : Engine) (x : List Entry) (r : String)
    (h : st.hasContext = true) (hg : o.generate (option4Prompt st) = .ok r) :
    answerOption4 o { st with conversation_history := x } =
      (pyStrip r,
       { st with conversation_history := x ++ [.menu_selection 4 (pyStrip r)] }) := by
  unfold answerOption4
  rw [hasContext_hist, h, option4Prompt_hist, hg]
  rfl

/-- Claim C4, counterexample: in the agentic engine a failed model call at
the monitoring step is NOT converted to an inline string — the exception
propagates out of `answer_menu_option`. -/
theorem claim_C4_counterexample :
    Agentic.answer_menu_option failAgOracle egAgCtx 4 = Except.error "boom" := rfl

set_option maxRecDepth 8192 in
/-- Claim C4 as amended: in `AgriQAEngine` (qa_engine.py) a failing model
call is downgraded to an inline error string and never aborts sibling
sections — with option 1 failing and options 2-4 succeeding, the Detailed
Report still carries all four sections, the failed one holding the inline
error.  In the agentic engine (qa_engine_agentic.py) there is no handler:
a model failure in `answer_menu_option` or `ask_custom_question`
propagates to the caller as the raised exception. -/
theorem claim_C4_amended :
    (∀ (o : Oracle) (st : Engine) (e r2 r3 r4 : String),
      Engine.hasContext st = true →
      o.generate (option1Prompt st) = .error e →
      o.generate (option2Prompt st) = .ok r2 →
      o.generate (option3Prompt st) = .ok r3 →
      o.generate (option4Prompt st) = .ok r4 →
      (answer_menu_selection o st 5).1 =
        mkDetailedReport ("Error generating recommendations: " ++ e)
          (soilInfoDisplay (dGetDict st.soil "soil_properties") ++ "\n\n" ++ pyStrip r2)
          (weatherDisplay st ++ "\n\n" ++ pyStrip r3)
          (pyStrip r4)) ∧
    (∀ (o : Agentic.AgOracle) (ctx : Agentic.AgContext) (e : String),
      o.send (Agentic.agMonitoringPrompt ctx) = .error e →
      Agentic.answer_menu_option o ctx 4 = .error e) ∧
    (∀ (o : Agentic.AgOracle) (ctx : Agentic.AgContext) (q e : String),
      o.send q = .error e →
      Agentic.ask_custom_question o ctx q = .error e) := by
  refine ⟨?_, ?_, ?_⟩
  · intro o st e r2 r3 r4 h h1e h2ok h3ok h4ok
    have a1 : answerOption1 o st = ("Error generating recommendations: " ++ e, st) := by
      unfold answerOption1
      rw [h, h1e]
      rfl
    have a2 : answerOption2 o st =
        (soilInfoDisplay (dGetDict st.soil "soil_properties") ++ "\n\n" ++ pyStrip r2,
         { st with conversation_history := st.conversation_history ++
            [.menu_selection 2 (soilInfoDisplay (dGetDict st.soil "soil_properties") ++
              "\n\n" ++ pyStrip r2)] }) := by
      unfold answerOption2
      rw [h, h2ok]
      rfl
    rw [answer_menu_selection_five o st h]
    simp only [a1, a2, answerOption3_eq o st _ r3 h h3ok, answerOption4_eq o st _ r4 h h4ok]
  · intro o ctx e hsend
    unfold Agentic.answer_menu_option Agentic.answerMonitoring
    rw [hsend]
    rfl
  · intro o ctx q e hsend
    unfold Agentic.ask_custom_question
    rw [hsend]
    rfl

set_option maxRecDepth 16384 in
/-- Claim C4 witness: the concrete mixed-failure report and the concrete
agentic propagations. -/
theorem claim_C4_witness :
    (answer_menu_selection mixedOracle egEngine 5).1 =
      mkDetailedReport ("Error generating recommendations: " ++ "boom")
        (soilInfoDisplay (dGetDict egEngine.soil "soil_properties") ++ "\n\n" ++
          pyStrip "advice text")
        (weatherDisplay egEngine ++ "\n\n" ++ pyStrip "advice text")
        (pyStrip "advice text") ∧
    Agentic.answer_menu_option failAgOracle egAgCtx 4 = Except.error "boom" ∧
    Agentic.ask_custom_question failAgOracle egAgCtx "is it spreading?" =
      Except.error "boom" :=
  ⟨claim_C4_amended.1 mixedOracle egEngine "boom" "advice text" "advice text" "advice text"
     rfl rfl rfl rfl rfl,
   claim_C4_amended.2.1 failAgOracle egAgCtx "boom" rfl,
   claim_C4_amended.2.2 failAgOracle egAgCtx "is it spreading?" "boom" rfl⟩

/-- The qa_engine report template always contains its four section headers
in order, whatever the section bodies are. -/
theorem mkDetailedReport_headers (t s w m : String) :
    containsInOrder4 (mkDetailedReport t s w m)
      "## 1. TREATMENT RECOMMENDATIONS" "## 2. SOIL IMPACT ANALYSIS"
      "## 3. WEATHER-BASED TIMING" "## 4. MONITORING & PREVENTION" := by
  refine ⟨"\n" ++ String.mk (List.replicate 70 '=') ++ "\nCOMPREHENSIVE TREATMENT REPORT\n" ++
      String.mk (List.replicate 70 '=') ++ "\n\n",
    "\n" ++ t ++ "\n\n" ++ String.mk (List.replicate 70 '─') ++ "\n\n",
    "\n" ++ s ++ "\n\n" ++ String.mk (List.replicate 70 '─') ++ "\n\n",
    "\n" ++ w ++ "\n\n" ++ String.mk (List.replicate 70 '─') ++ "\n\n",
    "\n" ++ m ++ "\n\n" ++ String.mk (List.replicate 70 '=') ++ "\n", ?_⟩
  simp only [mkDetailedReport, String.append_assoc]

/-- The agentic report template always contains its four section headers
in order. -/
theorem mkAgReport_headers (t sd sa wd wa m : String) :
    containsInOrder4 (Agentic.mkAgReport t sd sa wd wa m)
      "## 1️⃣ TREATMENT RECOMMENDATIONS" "## 2️⃣ SOIL IMPACT ANALYSIS"
      "## 3️⃣ WEATHER-BASED TIMING" "## 4️⃣ MONITORING & PREVENTION" := by
  refine ⟨"\n" ++ String.mk (List.replicate 70 '═') ++
      "\n                    COMPREHENSIVE TREATMENT REPORT\n" ++
      String.mk (List.replicate 70 '═') ++ "\n\n",
    "\n\n" ++ t ++ "\n\n" ++ String.mk (List.replicate 70 '─') ++ "\n\n",
    "\n\n" ++ sd ++ "\n\n" ++ sa ++ "\n\n" ++ String.mk (List.replicate 70 '─') ++ "\n\n",
    "\n\n" ++ wd ++ "\n\n" ++ wa ++ "\n\n" ++ String.mk (List.replicate 70 '─') ++ "\n\n",
    "\n\n" ++ m ++ "\n\n" ++ String.mk (List.replicate 70 '═') ++ "\n", ?_⟩
  simp only [Agentic.mkAgReport, String.append_assoc]

/-- Claim C5, counterexample: in the agentic engine, a failing sub-call
inside the Detailed Report aborts the whole report — the dispatcher yields
the propagated exception instead of any output, so no header-carrying
report exists. -/
theorem claim_C5_counterexample :
    Agentic.answer_menu_option failAgOracle egAgCtx 5 = Except.error "boom" := rfl

/-- Claim C5 as amended: in `AgriQAEngine` (qa_engine.py) the option-5
output contains the four section headers in fixed order for EVERY oracle
behavior, failures included.  In the agentic engine the headers are present
whenever every channel call succeeds, but a failing sub-call aborts the
whole report with an exception instead. -/
theorem claim_C5_amended :
    (∀ (o : Oracle) (st : Engine),
      Engine.hasContext st = true →
      containsInOrder4 (answer_menu_selection o st 5).1
        "## 1. TREATMENT RECOMMENDATIONS" "## 2. SOIL IMPACT ANALYSIS"
        "## 3. WEATHER-BASED TIMING" "## 4. MONITORING & PREVENTION") ∧
    (∀ (o : Agentic.AgOracle) (ctx : Agentic.AgContext),
      (∀ p, (o.send p).isOk = true) →
      ∃ r, Agentic.answer_menu_option o ctx 5 = .ok r ∧
        containsInOrder4 r
          "## 1️⃣ TREATMENT RECOMMENDATIONS" "## 2️⃣ SOIL IMPACT ANALYSIS"
          "## 3️⃣ WEATHER-BASED TIMING" "## 4️⃣ MONITORING & PREVENTION") := by
  constructor
  · intro o st h
    rw [answer_menu_selection_five o st h]
    exact mkDetailedReport_headers _ _ _ _
  · intro o ctx hall
    have hsend : ∀ p, ∃ r, o.send p = .ok r := by
      intro p
      cases hp : o.send p with
      | error e =>
        have := hall p
        rw [hp] at this
        simp [Except.isOk, Except.toBool] at this
      | ok r => exact ⟨r, rfl⟩
    obtain ⟨t1, ht1⟩ := hsend (Agentic.treatmentPrompt ctx)
    obtain ⟨t2, ht2⟩ := hsend (Agentic.productPrompt ctx)
    obtain ⟨s1, hs1⟩ := hsend (Agentic.agReportSoilPrompt ctx)
    obtain ⟨w1, hw1⟩ := hsend Agentic.agReportWeatherPrompt
    obtain ⟨m1, hm1⟩ := hsend (Agentic.agMonitoringPrompt ctx)
    have heq : Agentic.answer_menu_option o ctx 5 =
        .ok (Agentic.mkAgReport
          ("**Treatment Recommendations:**\n\n" ++ t1 ++ "\n\n" ++
            String.mk (List.replicate 70 '─') ++ "\n\n" ++ t2)
          (Agentic.format_soil_display
            (LocationService.get_soil_data o.geocode o.sfetch ctx.zipcode))
          s1
          (Agentic.format_weather_display
            (LocationService.get_weather_data o.geocode o.wfetch ctx.zipcode))
          w1 m1) := by
      unfold Agentic.answer_menu_option Agentic.generate_treatment_recommendations
        Agentic.answerMonitoring
      rw [ht1, ht2, hs1, hw1, hm1]
      rfl
    exact ⟨_, heq, mkAgReport_headers _ _ _ _ _ _⟩

/-- Claim C5 witness: the concrete all-success report of each engine
carries its four headers in order, and the qa_engine report also does under
the all-fail oracle. -/
theorem claim_C5_witness :
    containsInOrder4 (answer_menu_selection okOracle egEngine 5).1
      "## 1. TREATMENT RECOMMENDATIONS" "## 2. SOIL IMPACT ANALYSIS"
      "## 3. WEATHER-BASED TIMING" "## 4. MONITORING & PREVENTION" ∧
    containsInOrder4 (answer_menu_selection failOracle egEngine 5).1
      "## 1. TREATMENT RECOMMENDATIONS" "## 2. SOIL IMPACT ANALYSIS"
      "## 3. WEATHER-BASED TIMING" "## 4. MONITORING & PREVENTION" ∧
    ∃ r, Agentic.answer_menu_option okAgOracle egAgCtx 5 = .ok r ∧
      containsInOrder4 r
        "## 1️⃣ TREATMENT RECOMMENDATIONS" "## 2️⃣ SOIL IMPACT ANALYSIS"
        "## 3️⃣ WEATHER-BASED TIMING" "## 4️⃣ MONITORING & PREVENTION" :=
  ⟨claim_C5_amended.1 okOracle egEngine rfl,
   claim_C5_amended.1 failOracle egEngine rfl,
   claim_C5_amended.2 okAgOracle egAgCtx (fun _ => rfl)⟩
